import Mathlib

/-!
# Verification of the UniFi cable-tester core (ssh_client.py / coordinator.py)

A shallow embedding, in Lean 4, of the pure computational core of the
`ha-unifi-cable-tester` repository: the output parsers and status
normalizers of `ssh_client.py`, the connection/command state transitions
of `UniFiSSHClient.run_command` and `run_cli_commands`, and the
orchestration state machine of
`UniFiCableTesterCoordinator.async_request_cable_test`.

Python strings are modelled as Lean `String` (operating on `String.data`
character lists); Python `dict`s keyed by port number are modelled as
insertion-ordered association lists; Python `set` as `Finset Nat`;
Python `float` lengths as `Option ℚ` (the claims under study never
depend on the numeric value, only on presence/absence; IEEE rounding is
abstracted to exact rationals).  Regular-expression matches used by the
source are hand-compiled to character-list scanners with the same
leftmost-match semantics.  `datetime` timestamps carried by the source
records are outside the embedding (no claim mentions them).

A Python operation that could raise an exception not handled inside the
translated function is modelled with `Except`; operations the source
wraps in `try/except` are modelled with `Option` handled in place.
-/

namespace UniFiCT

/-! ## Python string primitives -/

/-- Python whitespace for `str.strip` / `\s` (ASCII fragment actually
produced by the device transcripts). -/
def pyIsSpace (c : Char) : Bool :=
  c = ' ' ∨ c = '\t' ∨ c = '\n' ∨ c = '\r' ∨ c = '\x0b' ∨ c = '\x0c'

/-- ASCII lower-casing of one character (Python `str.lower` on the ASCII
transcripts handled here). -/
def pyLowerChar (c : Char) : Char :=
  if 'A' ≤ c ∧ c ≤ 'Z' then Char.ofNat (c.toNat + 32) else c

/-- Python `str.lower`. -/
def pyLower (s : String) : String := ⟨s.data.map pyLowerChar⟩

/-- Drop trailing characters satisfying `p` (helper for `str.strip`). -/
def dropTrailing (p : Char → Bool) (l : List Char) : List Char :=
  (l.reverse.dropWhile p).reverse

/-- Python `str.strip()` on a character list: remove trailing then
leading whitespace. -/
def stripL (l : List Char) : List Char :=
  (dropTrailing pyIsSpace l).dropWhile pyIsSpace

/-- Python `str.strip()`. -/
def pyStrip (s : String) : String := ⟨stripL s.data⟩

/-- `str.splitlines` worker: `acc` holds the current (reversed) line. -/
def splitLinesAux : List Char → List Char → List String
  | [], acc => if acc.isEmpty then [] else [⟨acc.reverse⟩]
  | '\r' :: '\n' :: rest, acc => ⟨acc.reverse⟩ :: splitLinesAux rest []
  | c :: rest, acc =>
    if c = '\n' ∨ c = '\r' ∨ c = '\x0b' ∨ c = '\x0c' then
      ⟨acc.reverse⟩ :: splitLinesAux rest []
    else
      splitLinesAux rest (c :: acc)

/-- Python `str.splitlines()` (line-break characters occurring in the
device transcripts: `\n`, `\r\n`, `\r`, `\x0b`, `\x0c`). -/
def pyLines (s : String) : List String := splitLinesAux s.data []

/-- `str.split()` (split on whitespace runs, no empty tokens) worker. -/
def splitWsAux : List Char → List Char → List String
  | [], acc => if acc.isEmpty then [] else [⟨acc.reverse⟩]
  | c :: rest, acc =>
    if pyIsSpace c then
      if acc.isEmpty then splitWsAux rest [] else ⟨acc.reverse⟩ :: splitWsAux rest []
    else
      splitWsAux rest (c :: acc)

/-- Python `str.split()` with no argument. -/
def pySplitWs (s : String) : List String := splitWsAux s.data []

/-- Does `hay` start with `needle`? (`str.startswith`). -/
def startsWithL : List Char → List Char → Bool
  | _, [] => true
  | [], _ :: _ => false
  | h :: hs, n :: ns => h = n && startsWithL hs ns

/-- `needle in hay` substring test: does the needle occur at some
position of the haystack? -/
def containsL : List Char → List Char → Bool
  | [], needle => startsWithL [] needle
  | c :: rest, needle => startsWithL (c :: rest) needle || containsL rest needle

/-- String-level `startswith`. -/
def pyStartsWith (s pre : String) : Bool := startsWithL s.data pre.data

/-- String-level `in` substring test. -/
def pyContains (s sub : String) : Bool := containsL s.data sub.data

/-- ASCII decimal digit. -/
def isDigitC (c : Char) : Bool := '0' ≤ c ∧ c ≤ '9'

/-- Python regex word character `\w` (ASCII fragment). -/
def isWordC (c : Char) : Bool :=
  isDigitC c ∨ ('a' ≤ c ∧ c ≤ 'z') ∨ ('A' ≤ c ∧ c ≤ 'Z') ∨ c = '_'

/-- Numeric value of a digit list (Python `int` on a `\d+` match). -/
def toNatL (l : List Char) : Nat :=
  l.foldl (fun a c => a * 10 + (c.toNat - 48)) 0

/-- Split at the first occurrence of character `d`
(Python `text.split(d, 1)`); `none` when `d` is absent. -/
def splitFirst (d : Char) : List Char → Option (List Char × List Char)
  | [] => none
  | c :: rest =>
    if c = d then some ([], rest)
    else match splitFirst d rest with
      | some (a, b) => some (c :: a, b)
      | none => none

/-- Decidable equality for `Except` (used to evaluate the embedded
fallible operations at concrete inputs). -/
instance {ε α : Type} [DecidableEq ε] [DecidableEq α] :
    DecidableEq (Except ε α)
  | .ok a, .ok b =>
    if h : a = b then .isTrue (congrArg Except.ok h)
    else .isFalse (fun hh => h (Except.ok.inj hh))
  | .ok _, .error _ => .isFalse (fun hh => Except.noConfusion hh)
  | .error _, .ok _ => .isFalse (fun hh => Except.noConfusion hh)
  | .error a, .error b =>
    if h : a = b then .isTrue (congrArg Except.error h)
    else .isFalse (fun hh => h (Except.error.inj hh))

/-! ## Constants (const.py) -/

def STATUS_OK : String := "OK"
def STATUS_OPEN : String := "Open"
def STATUS_SHORT : String := "Short"
def STATUS_NOT_TESTED : String := "Not Tested"
def STATUS_FIBER : String := "Fiber"
def STATUS_UNKNOWN : String := "Unknown"

def TEST_RUN_IDLE : String := "Idle"
def TEST_RUN_RUNNING : String := "Running"
def TEST_RUN_COMPLETED : String := "Completed"
def TEST_RUN_FAILED : String := "Failed"

/-! ## Data model (ssh_client.py dataclasses)

The `last_tested : datetime` field of `CableTestResult` is real time and
is not part of the embedding; no claim mentions it. -/

/-- `ssh_client.CableTestResult` (without the `last_tested` timestamp). -/
structure CableTestResult where
  port : Nat
  pair_1_status : String := STATUS_NOT_TESTED
  pair_1_length : Option ℚ := none
  pair_2_status : String := STATUS_NOT_TESTED
  pair_2_length : Option ℚ := none
  pair_3_status : String := STATUS_NOT_TESTED
  pair_3_length : Option ℚ := none
  pair_4_status : String := STATUS_NOT_TESTED
  pair_4_length : Option ℚ := none
  deriving DecidableEq, Repr

/-- `ssh_client.SwitchInfo`. -/
structure SwitchInfo where
  hostname : String := "UniFi Switch"
  model : String := "USW"
  version : Option String := none
  mac : Option String := none
  deriving DecidableEq, Repr

/-- `ssh_client.PortStatus`. -/
structure PortStatus where
  port : Nat
  connected : Option Bool := none
  speed_mbps : Option Nat := none
  speed_display : Option String := none
  port_type : Option String := none
  deriving DecidableEq, Repr

/-! ## Python dict with Nat keys, as an insertion-ordered association list -/

/-- `d[k] = v`: update in place if the key exists, else append. -/
def dinsert (k : Nat) (v : α) : List (Nat × α) → List (Nat × α)
  | [] => [(k, v)]
  | (k', v') :: rest =>
    if k' = k then (k, v) :: rest else (k', v') :: dinsert k v rest

/-- `d.get(k)` / `d[k]` lookup. -/
def dlookup (k : Nat) : List (Nat × α) → Option α
  | [] => none
  | (k', v') :: rest => if k' = k then some v' else dlookup k rest

/-- `d.setdefault(k, v)`. -/
def dsetdefault (k : Nat) (v : α) (d : List (Nat × α)) : List (Nat × α) :=
  match dlookup k d with
  | some _ => d
  | none => dinsert k v d

/-- `d.update(other)`: apply `other`'s entries in order. -/
def dupdate (d other : List (Nat × α)) : List (Nat × α) :=
  other.foldl (fun acc kv => dinsert kv.1 kv.2 acc) d

/-! ## Status normalizers (ssh_client.py, module level) -/

/-- The branch chain of `_normalize_cable_status` on the already
stripped-and-lowered token. -/
def normalizeCableCore (s : String) : String :=
  if s = "normal" ∨ s = "ok" ∨ s = "good" then STATUS_OK
  else if s = "open" ∨ s = "disconnect" ∨ s = "disconnected" then STATUS_OPEN
  else if s = "short" then STATUS_SHORT
  else if s = "not supported" ∨ s = "n/a" ∨ s = "na" ∨ s = "-" ∨ s = "" then STATUS_NOT_TESTED
  else STATUS_UNKNOWN

/-- `ssh_client._normalize_cable_status`. -/
def _normalize_cable_status (status : String) : String :=
  normalizeCableCore (pyLower (pyStrip status))

/-- The branch chain of `_normalize_status` on the already
stripped-and-lowered token. -/
def normalizeStatusCore (s : String) : String :=
  if s = "ok" ∨ s = "normal" ∨ s = "good" then STATUS_OK
  else if s = "open" ∨ s = "disconnect" ∨ s = "disconnected" then STATUS_OPEN
  else if s = "short" then STATUS_SHORT
  else if s = "n/a" ∨ s = "na" ∨ s = "-" ∨ s = "" then STATUS_NOT_TESTED
  else STATUS_UNKNOWN

/-- `ssh_client._normalize_status`. -/
def _normalize_status (status : String) : String :=
  normalizeStatusCore (pyLower (pyStrip status))

/-- Modelled from the spec: the spec's §4.3 shared status-normalization
mapping ({ok, normal, good}→OK; {open, disconnect, disconnected}→Open;
{short}→Short; {n/a, na, -, "", not supported}→NotTested; anything
else→Unknown, applied case-insensitively to the stripped token), stated
as its own definition so the two source normalizers can be compared
against it (claim C4 is a refinement/equivalence claim). -/
def specNormalizeCore (s : String) : String :=
  if s = "ok" ∨ s = "normal" ∨ s = "good" then STATUS_OK
  else if s = "open" ∨ s = "disconnect" ∨ s = "disconnected" then STATUS_OPEN
  else if s = "short" then STATUS_SHORT
  else if s = "n/a" ∨ s = "na" ∨ s = "-" ∨ s = "" ∨ s = "not supported" then STATUS_NOT_TESTED
  else STATUS_UNKNOWN

/-- The spec's normalization mapping applied the way both source
normalizers apply theirs: strip, lower, then the branch chain. -/
def specNormalize (status : String) : String :=
  specNormalizeCore (pyLower (pyStrip status))

/-! ## Number parsing -/

/-- Python `float()` on the finite decimal / exponent literals produced
by the switch (sign, digits, optional fraction, optional exponent;
`inf`/`nan`/underscore literals never occur in transcripts and are not
modelled).  Returns `none` where `float()` raises `ValueError`. -/
def pyFloat? (s : String) : Option ℚ :=
  let l := stripL s.data
  let sgn : ℚ × List Char :=
    match l with
    | '+' :: t => (1, t)
    | '-' :: t => (-1, t)
    | _ => (1, l)
  let ip := sgn.2.takeWhile isDigitC
  let l2 := sgn.2.dropWhile isDigitC
  let frac : Option (List Char × List Char) :=
    match l2 with
    | '.' :: t => some (t.takeWhile isDigitC, t.dropWhile isDigitC)
    | _ => some ([], l2)
  match frac with
  | none => none
  | some (fp, l3) =>
    if ip = [] ∧ fp = [] then none
    else
      let base : ℚ := sgn.1 * ((toNatL ip : ℚ) + (toNatL fp : ℚ) / (10 : ℚ) ^ fp.length)
      match l3 with
      | [] => some base
      | e :: t =>
        if e = 'e' ∨ e = 'E' then
          let es : ℤ × List Char :=
            match t with
            | '+' :: t' => (1, t')
            | '-' :: t' => (-1, t')
            | _ => (1, t)
          let ed := es.2.takeWhile isDigitC
          let t2 := es.2.dropWhile isDigitC
          if ed = [] ∨ ¬ t2 = [] then none
          else some (base * (10 : ℚ) ^ (es.1 * (toNatL ed : ℤ)))
        else none

/-- `ssh_client._parse_length`: parse `"45m"` / `"45"` into meters;
sentinel values and unmatched text give `none`. -/
def _parse_length (length_str : String) : Option ℚ :=
  let l := pyLower (pyStrip length_str)
  if l = "n/a" ∨ l = "na" ∨ l = "-" ∨ l = "" then none
  else
    -- re.match(r"^([\d.]+)\s*m?$", l)
    let run := l.data.takeWhile (fun c => isDigitC c ∨ c = '.')
    let rest := l.data.dropWhile (fun c => isDigitC c ∨ c = '.')
    if run.isEmpty then none
    else
      let rest2 := rest.dropWhile pyIsSpace
      let matched := match rest2 with
        | [] => true
        | ['m'] => true
        | _ => false
      if matched then pyFloat? ⟨run⟩ else none

/-- `ssh_client._set_pair_result`. -/
def _set_pair_result (result : CableTestResult) (pair_index : Nat)
    (status : String) (length : Option ℚ) : CableTestResult :=
  if pair_index = 1 then
    { result with pair_1_status := status, pair_1_length := length }
  else if pair_index = 2 then
    { result with pair_2_status := status, pair_2_length := length }
  else if pair_index = 3 then
    { result with pair_3_status := status, pair_3_length := length }
  else if pair_index = 4 then
    { result with pair_4_status := status, pair_4_length := length }
  else result

/-- Worker for `_extract_pairs`: walk the token list, keeping at most
four (status, length) pairs; a recognised status token may consume the
following token as its length. -/
def extractPairsAux : List String → List (String × Option ℚ) → List (String × Option ℚ)
  | [], pairs => pairs
  | [token], pairs =>
    if pairs.length < 4 then
      let normalized := _normalize_status token
      if ¬ normalized = STATUS_UNKNOWN ∨
          (pyLower token = "n/a" ∨ pyLower token = "na" ∨ pyLower token = "-") then
        let status := if ¬ normalized = STATUS_UNKNOWN then normalized else STATUS_NOT_TESTED
        pairs ++ [(status, none)]
      else pairs
    else pairs
  | token :: candidate :: rest', pairs =>
    if pairs.length < 4 then
      let normalized := _normalize_status token
      if ¬ normalized = STATUS_UNKNOWN ∨
          (pyLower token = "n/a" ∨ pyLower token = "na" ∨ pyLower token = "-") then
        let status := if ¬ normalized = STATUS_UNKNOWN then normalized else STATUS_NOT_TESTED
        if _normalize_status candidate = STATUS_UNKNOWN ∧
            ¬ (pyLower candidate = "n/a" ∨ pyLower candidate = "na" ∨ pyLower candidate = "-") then
          match _parse_length candidate with
          | some len => extractPairsAux rest' (pairs ++ [(status, some len)])
          | none => extractPairsAux (candidate :: rest') (pairs ++ [(status, none)])
        else if pyLower candidate = "n/a" ∨ pyLower candidate = "na" ∨ pyLower candidate = "-" then
          extractPairsAux rest' (pairs ++ [(status, none)])
        else
          extractPairsAux (candidate :: rest') (pairs ++ [(status, none)])
      else
        extractPairsAux (candidate :: rest') pairs
    else pairs

/-- `ssh_client._extract_pairs`: extract up to four status/length pairs
from a cable-test result line. -/
def _extract_pairs (text : String) : List (String × Option ℚ) :=
  extractPairsAux (pySplitWs text) []

/-! ## Hand-compiled regular expressions

Each `re.search` is a leftmost scan trying a matcher at every start
position (with the preceding character available for `\b` tests);
each `re.match` anchors the matcher at the start. -/

/-- Generic leftmost `re.search` scan.  The matcher receives the
character preceding the current position (for word-boundary tests) and
the remaining text. -/
def searchL (m : Option Char → List Char → Option α) :
    Option Char → List Char → Option α
  | prev, [] => m prev []
  | prev, c :: rest =>
    match m prev (c :: rest) with
    | some r => some r
    | none => searchL m (some c) rest

/-- `re.match(r"^U?(\d+)\s+(.*)", line)` (shared by the port-count and
port-status parsers): an optional uplink marker, a port index, at least
one whitespace character, and the remainder. -/
def uNumRest (s : String) : Option (Nat × String) :=
  let core : List Char → Option (Nat × String) := fun l =>
    let ds := l.takeWhile isDigitC
    let l2 := l.dropWhile isDigitC
    if ds.isEmpty then none
    else
      let ws := l2.takeWhile pyIsSpace
      let rest := l2.dropWhile pyIsSpace
      if ws.isEmpty then none else some (toNatL ds, ⟨rest⟩)
  match s.data with
  | 'U' :: t => core t
  | l => core l

/-- `re.match(r"^(\d+)\s+(.*)", line)` (strategy 1 of the legacy
cable-test parser): a leading port number, whitespace, remainder. -/
def leadNumRest (s : String) : Option (Nat × String) :=
  let l := s.data
  let ds := l.takeWhile isDigitC
  let l2 := l.dropWhile isDigitC
  if ds.isEmpty then none
  else
    let ws := l2.takeWhile pyIsSpace
    let rest := l2.dropWhile pyIsSpace
    if ws.isEmpty then none else some (toNatL ds, ⟨rest⟩)

/-- Matcher for `re.search(r"\bport\s*(\d+)\b", lower)` at one position. -/
def portHeaderAt (prev : Option Char) (l : List Char) : Option Nat :=
  let boundary : Bool := match prev with
    | none => true
    | some c => ! isWordC c
  if boundary ∧ startsWithL l ['p', 'o', 'r', 't'] then
    let l1 := (l.drop 4).dropWhile pyIsSpace
    let ds := l1.takeWhile isDigitC
    let l2 := l1.dropWhile isDigitC
    if ds.isEmpty then none
    else match l2 with
      | [] => some (toNatL ds)
      | c :: _ => if isWordC c then none else some (toNatL ds)
  else none

/-- `re.search(r"\bport\s*(\d+)\b", lower)`. -/
def portHeaderSearch (s : String) : Option Nat :=
  searchL portHeaderAt none s.data

/-- `re.match(r"^(\d+)\s*$", lower)`: a bare port number (the line was
already stripped, so this is a nonempty all-digit line). -/
def barePortMatch (s : String) : Option Nat :=
  let l := s.data
  let ds := l.takeWhile isDigitC
  let l2 := l.dropWhile isDigitC
  if ds.isEmpty then none
  else if l2.dropWhile pyIsSpace = [] then some (toNatL ds) else none

/-- Matcher for `re.search(r"pair\s*([abcd1-4])", lower)` at one position. -/
def pairLabelAt (_prev : Option Char) (l : List Char) : Option Nat :=
  if startsWithL l ['p', 'a', 'i', 'r'] then
    match (l.drop 4).dropWhile pyIsSpace with
    | c :: _ =>
      if c = 'a' ∨ c = '1' then some 1
      else if c = 'b' ∨ c = '2' then some 2
      else if c = 'c' ∨ c = '3' then some 3
      else if c = 'd' ∨ c = '4' then some 4
      else none
    | [] => none
  else none

/-- `re.search(r"pair\s*([abcd1-4])", lower)`, mapped through the
pair-letter/index table of the source. -/
def pairLabelSearch (s : String) : Option Nat :=
  searchL pairLabelAt none s.data

/-- Matcher for `re.search(r"\bU/([UD])\b", rest)` at one position. -/
def linkAt (prev : Option Char) (l : List Char) : Option Char :=
  let boundary : Bool := match prev with
    | none => true
    | some c => ! isWordC c
  match l with
  | 'U' :: '/' :: c :: rest =>
    if boundary ∧ (c = 'U' ∨ c = 'D') then
      match rest with
      | [] => some c
      | c' :: _ => if isWordC c' then none else some c
    else none
  | _ => none

/-- `re.search(r"\bU/([UD])\b", rest)`. -/
def linkSearch (s : String) : Option Char :=
  searchL linkAt none s.data

/-- Matcher for `re.search(r"\b(\d+)[FH]\b", rest)` at one position. -/
def rateAt (prev : Option Char) (l : List Char) : Option Nat :=
  let boundary : Bool := match prev with
    | none => true
    | some c => ! isWordC c
  if boundary then
    let ds := l.takeWhile isDigitC
    let l2 := l.dropWhile isDigitC
    if ds.isEmpty then none
    else match l2 with
      | c :: rest =>
        if c = 'F' ∨ c = 'H' then
          match rest with
          | [] => some (toNatL ds)
          | c' :: _ => if isWordC c' then none else some (toNatL ds)
        else none
      | [] => none
  else none

/-- `re.search(r"\b(\d+)[FH]\b", rest)`. -/
def rateSearch (s : String) : Option Nat :=
  searchL rateAt none s.data

/-- One hex digit. -/
def isHexC (c : Char) : Bool :=
  isDigitC c ∨ ('a' ≤ c ∧ c ≤ 'f') ∨ ('A' ≤ c ∧ c ≤ 'F')

/-- Matcher for the MAC-address regex
`([0-9a-fA-F]{2}[:-]){5}[0-9a-fA-F]{2}` at one position (fixed length:
six hex pairs joined by `:` or `-`); returns the 17 matched characters. -/
def macAt (_prev : Option Char) (l : List Char) : Option (List Char) :=
  match l with
  | a1 :: a2 :: s1 :: b1 :: b2 :: s2 :: c1 :: c2 :: s3 :: d1 :: d2 :: s4 ::
      e1 :: e2 :: s5 :: f1 :: f2 :: _ =>
    if isHexC a1 ∧ isHexC a2 ∧ (s1 = ':' ∨ s1 = '-') ∧
        isHexC b1 ∧ isHexC b2 ∧ (s2 = ':' ∨ s2 = '-') ∧
        isHexC c1 ∧ isHexC c2 ∧ (s3 = ':' ∨ s3 = '-') ∧
        isHexC d1 ∧ isHexC d2 ∧ (s4 = ':' ∨ s4 = '-') ∧
        isHexC e1 ∧ isHexC e2 ∧ (s5 = ':' ∨ s5 = '-') ∧
        isHexC f1 ∧ isHexC f2 then
      some [a1, a2, s1, b1, b2, s2, c1, c2, s3, d1, d2, s4, e1, e2, s5, f1, f2]
    else none
  | _ => none

/-- `re.search` of the MAC-address regex; the result is the matched text
(`group(0)`). -/
def macSearch (s : String) : Option String :=
  (searchL macAt none s.data).map (fun l => ⟨l⟩)

/-- `.replace("-", ":").lower()` applied to a matched MAC. -/
def macNormalize (m : String) : String :=
  pyLower ⟨m.data.map (fun c => if c = '-' then ':' else c)⟩

/-- `re.match(r"gi(\d+)\s*\|", line)`: the CLI-dialect per-port header. -/
def giHeaderMatch (s : String) : Option Nat :=
  match s.data with
  | 'g' :: 'i' :: rest =>
    let ds := rest.takeWhile isDigitC
    let l2 := rest.dropWhile isDigitC
    if ds.isEmpty then none
    else match l2.dropWhile pyIsSpace with
      | '|' :: _ => some (toNatL ds)
      | _ => none
  | _ => none

/-- Matcher for
`re.search(r"Pair\s+([A-D])\s*\|\s*([^\|]+)\s*\|\s*(.+)$", line, re.IGNORECASE)`
at one position: case-insensitive `Pair`, at least one whitespace
character, a pair letter, optional whitespace, `|`, a nonempty run of
non-`|` characters (captured up to the next `|`; the source strips it
before use, so leading/trailing whitespace placement inside the capture
is immaterial), `|`, and a nonempty remainder. -/
def diagPairAt (_prev : Option Char) (l : List Char) : Option (Nat × String × String) :=
  if startsWithL (l.map pyLowerChar) ['p', 'a', 'i', 'r'] then
    let l1 := l.drop 4
    let ws := l1.takeWhile pyIsSpace
    let l2 := l1.dropWhile pyIsSpace
    if ws.isEmpty then none
    else match l2 with
      | c :: l3 =>
        let idx : Option Nat :=
          if pyLowerChar c = 'a' then some 1
          else if pyLowerChar c = 'b' then some 2
          else if pyLowerChar c = 'c' then some 3
          else if pyLowerChar c = 'd' then some 4
          else none
        match idx with
        | none => none
        | some i =>
          match l3.dropWhile pyIsSpace with
          | '|' :: l4 =>
            let content := l4.takeWhile (fun c => ¬ c = '|')
            let l5 := l4.dropWhile (fun c => ¬ c = '|')
            if content.isEmpty then none
            else match l5 with
              | '|' :: l6 => if l6.isEmpty then none else some (i, ⟨content⟩, ⟨l6⟩)
              | _ => none
          | _ => none
      | [] => none
  else none

/-- The CLI-dialect pair-row regex search. -/
def diagPairSearch (s : String) : Option (Nat × String × String) :=
  searchL diagPairAt none s.data

/-! ## Parser: port count (`UniFiSSHClient._parse_port_count`) -/

/-- The per-line matcher of `_parse_port_count`: strip the line, then
`re.match(r"^U?(\d+)\s+", line)`, giving the port index. -/
def portRowIdx (line : String) : Option Nat :=
  (uNumRest (pyStrip line)).map (·.1)

/-- `UniFiSSHClient._parse_port_count`: maximum port index over all
matching rows, `0` when none matched. -/
def _parse_port_count (output : String) : Nat :=
  (pyLines (pyStrip output)).foldl
    (fun max_port line =>
      match portRowIdx line with
      | some port_num => Nat.max max_port port_num
      | none => max_port)
    0

/-! ## Parser: switch info (`UniFiSSHClient._parse_switch_info`) -/

/-- `_value_after_delim` (nested in `_parse_switch_info`): the stripped
text after the first `:`, else after the first `=`, else `none`. -/
def valueAfterDelim (text : String) : Option String :=
  if containsL text.data [':'] then
    match splitFirst ':' text.data with
    | some (_, after) => some ⟨stripL after⟩
    | none => none
  else if containsL text.data ['='] then
    match splitFirst '=' text.data with
    | some (_, after) => some ⟨stripL after⟩
    | none => none
  else none

/-- One line of `_parse_switch_info` (the body of its `for` loop). -/
def siStep (info : SwitchInfo) (rawLine : String) : SwitchInfo :=
  let line := pyStrip rawLine
  if line = "" then info
  else
    let lower := pyLower line
    let value := valueAfterDelim line
    if pyContains lower "hostname" ∨ pyContains lower "host name" ∨
        pyContains lower "system name" ∨ pyContains lower "device name" then
      match value with
      | some v => if v = "" then info else { info with hostname := v }
      | none => info
    else if pyContains lower "model" ∨ pyContains lower "board name" ∨
        pyContains lower "product" then
      match value with
      | some v => if v = "" then info else { info with model := v }
      | none => info
    else if pyContains lower "version" ∨ pyContains lower "firmware" then
      match value with
      | some v => if v = "" then info else { info with version := some v }
      | none => info
    else if pyContains lower "mac" then
      match macSearch line with
      | some m => { info with mac := some (macNormalize m) }
      | none =>
        match value with
        | some v =>
          if v = "" then info
          else
            match macSearch v with
            | some m2 => { info with mac := some (macNormalize m2) }
            | none => { info with mac := some v }
        | none => info
    else info

/-- `_parse_switch_info` on an already-split line list. -/
def parseSwitchInfoLines (ls : List String) : SwitchInfo :=
  ls.foldl siStep {}

/-- `UniFiSSHClient._parse_switch_info`. -/
def _parse_switch_info (output : String) : SwitchInfo :=
  parseSwitchInfoLines (pyLines (pyStrip output))

/-- The value the hostname branch of `siStep` assigns for this line
(`none` when the line leaves the hostname unchanged): a restatement of
the branch conditions of `_parse_switch_info`'s loop body, used to
state the per-field last-match-wins property. -/
def siHostnameVal (rawLine : String) : Option String :=
  let line := pyStrip rawLine
  if line = "" then none
  else
    let lower := pyLower line
    let value := valueAfterDelim line
    if pyContains lower "hostname" ∨ pyContains lower "host name" ∨
        pyContains lower "system name" ∨ pyContains lower "device name" then
      match value with
      | some v => if v = "" then none else some v
      | none => none
    else none

/-- The value the model branch of `siStep` assigns for this line
(`none` when the line leaves the model unchanged). -/
def siModelVal (rawLine : String) : Option String :=
  let line := pyStrip rawLine
  if line = "" then none
  else
    let lower := pyLower line
    let value := valueAfterDelim line
    if pyContains lower "hostname" ∨ pyContains lower "host name" ∨
        pyContains lower "system name" ∨ pyContains lower "device name" then
      none
    else if pyContains lower "model" ∨ pyContains lower "board name" ∨
        pyContains lower "product" then
      match value with
      | some v => if v = "" then none else some v
      | none => none
    else none

/-- The value the version branch of `siStep` assigns for this line
(`none` when the line leaves the version unchanged). -/
def siVersionVal (rawLine : String) : Option String :=
  let line := pyStrip rawLine
  if line = "" then none
  else
    let lower := pyLower line
    let value := valueAfterDelim line
    if pyContains lower "hostname" ∨ pyContains lower "host name" ∨
        pyContains lower "system name" ∨ pyContains lower "device name" then
      none
    else if pyContains lower "model" ∨ pyContains lower "board name" ∨
        pyContains lower "product" then
      none
    else if pyContains lower "version" ∨ pyContains lower "firmware" then
      match value with
      | some v => if v = "" then none else some v
      | none => none
    else none

/-- The value the MAC branch of `siStep` assigns for this line
(`none` when the line leaves the MAC unchanged). -/
def siMacVal (rawLine : String) : Option String :=
  let line := pyStrip rawLine
  if line = "" then none
  else
    let lower := pyLower line
    let value := valueAfterDelim line
    if pyContains lower "hostname" ∨ pyContains lower "host name" ∨
        pyContains lower "system name" ∨ pyContains lower "device name" then
      none
    else if pyContains lower "model" ∨ pyContains lower "board name" ∨
        pyContains lower "product" then
      none
    else if pyContains lower "version" ∨ pyContains lower "firmware" then
      none
    else if pyContains lower "mac" then
      match macSearch line with
      | some m => some (macNormalize m)
      | none =>
        match value with
        | some v =>
          if v = "" then none
          else
            match macSearch v with
            | some m2 => some (macNormalize m2)
            | none => some v
        | none => none
    else none

/-! ## Parser: port statuses (`UniFiSSHClient._parse_port_statuses`) -/

/-- One line of `_parse_port_statuses`. -/
def psStep (statuses : List (Nat × PortStatus)) (line : String) :
    List (Nat × PortStatus) :=
  let raw := pyStrip line
  if raw = "" then statuses
  else
    match uNumRest raw with
    | none => statuses
    | some (port, rest) =>
      let connected : Option Bool :=
        match linkSearch rest with
        | some c => some (c = 'U')
        | none =>
          if pyContains (pyLower rest) "disabled" then some false else none
      let speeds : Option Nat × Option String :=
        match rateSearch rest with
        | some n =>
          if n = 0 then (none, none)
          else if 1000 ≤ n ∧ n % 1000 = 0 then
            (some n, some (toString (n / 1000) ++ " Gbps"))
          else (some n, some (toString n ++ " Mbps"))
        | none => (none, none)
      dinsert port
        { port := port
          connected := connected
          speed_mbps := speeds.1
          speed_display := speeds.2
          port_type := none } statuses

/-- `UniFiSSHClient._parse_port_statuses`. -/
def _parse_port_statuses (output : String) : List (Nat × PortStatus) :=
  (pyLines (pyStrip output)).foldl psStep []

/-! ## Parser: legacy cable-test output
(`UniFiSSHClient._parse_cable_test_output`) -/

/-- Apply strategy 1's positional `pair_data` assignments
(`if len(pair_data) >= k: ...` for k = 1..4) to a fresh result. -/
def applyPairData (port_num : Nat) (pd : List (String × Option ℚ)) : CableTestResult :=
  let base : CableTestResult := { port := port_num }
  match pd with
  | [] => base
  | [a] => { base with pair_1_status := a.1, pair_1_length := a.2 }
  | [a, b] =>
    { base with
      pair_1_status := a.1
      pair_1_length := a.2
      pair_2_status := b.1
      pair_2_length := b.2 }
  | [a, b, c] =>
    { base with
      pair_1_status := a.1
      pair_1_length := a.2
      pair_2_status := b.1
      pair_2_length := b.2
      pair_3_status := c.1
      pair_3_length := c.2 }
  | a :: b :: c :: d :: _ =>
    { base with
      pair_1_status := a.1
      pair_1_length := a.2
      pair_2_status := b.1
      pair_2_length := b.2
      pair_3_status := c.1
      pair_3_length := c.2
      pair_4_status := d.1
      pair_4_length := d.2 }

/-- One line of strategy 1 (single-line rows starting with a port
number). -/
def s1Step (results : List (Nat × CableTestResult)) (rawLine : String) :
    List (Nat × CableTestResult) :=
  let line := pyStrip rawLine
  if line = "" then results
  else
    let lower := pyLower line
    if pyStartsWith line "-" ∨ pyStartsWith line "=" then results
    else if pyStartsWith lower "port" ∧ pyContains lower "pair" ∧
        pyContains lower "status" then results
    else
      match leadNumRest line with
      | none => results
      | some (port_num, rest) =>
        dinsert port_num (applyPairData port_num (_extract_pairs rest)) results

/-- Strategy 2's fallback fill: each (status, length) pair goes into the
first pair slot still holding the `Not Tested` default. -/
def fillSlots (result : CableTestResult) :
    List (String × Option ℚ) → CableTestResult
  | [] => result
  | (status, length) :: rest =>
    let r' :=
      if result.pair_1_status = STATUS_NOT_TESTED then
        _set_pair_result result 1 status length
      else if result.pair_2_status = STATUS_NOT_TESTED then
        _set_pair_result result 2 status length
      else if result.pair_3_status = STATUS_NOT_TESTED then
        _set_pair_result result 3 status length
      else if result.pair_4_status = STATUS_NOT_TESTED then
        _set_pair_result result 4 status length
      else result
    fillSlots r' rest

/-- Strategy 2 state: the `current_port` variable and the `by_port`
dict. -/
structure S2St where
  cur : Option Nat
  byPort : List (Nat × CableTestResult)

/-- One line of strategy 2 (multiline block format).  The dict access
`by_port[current_port]` in the source can, in principle, raise
`KeyError`; it is modelled as `Except.error` so that totality (claim C7)
is a real statement. -/
def s2Step (st : S2St) (rawLine : String) : Except String S2St :=
  let line := pyStrip rawLine
  if line = "" then .ok st
  else
    let lower := pyLower line
    match portHeaderSearch lower with
    | some n => .ok ⟨some n, dsetdefault n { port := n } st.byPort⟩
    | none =>
      match barePortMatch lower with
      | some n => .ok ⟨some n, dsetdefault n { port := n } st.byPort⟩
      | none =>
        match st.cur with
        | none => .ok st
        | some current_port =>
          let pair_label := pairLabelSearch lower
          match _extract_pairs line with
          | [] => .ok st
          | pr :: restPairs =>
            match dlookup current_port st.byPort with
            | none => .error "KeyError: current_port"
            | some result =>
              match pair_label with
              | some pair_index =>
                .ok ⟨st.cur, dinsert current_port
                  (_set_pair_result result pair_index pr.1 pr.2) st.byPort⟩
              | none =>
                .ok ⟨st.cur, dinsert current_port
                  (fillSlots result (pr :: restPairs)) st.byPort⟩

/-- `UniFiSSHClient._parse_cable_test_output`: strategy 1 over all
lines; if it produced nothing, strategy 2. -/
def _parse_cable_test_output (output : String) :
    Except String (List (Nat × CableTestResult)) :=
  let lines := pyLines (pyStrip output)
  let results := lines.foldl s1Step []
  if results.isEmpty then
    (lines.foldlM s2Step ⟨none, []⟩).map (·.byPort)
  else .ok results

/-! ## Parser: CLI cable-diag output
(`UniFiSSHClient._parse_cable_diag_output`) -/

/-- CLI-dialect parser state: the `current_result` object reference and
the `results` dict.  In the source `current_result` is an alias of the
entry `results[current_port]`; mutating it mutates the dict entry, which
is modelled by writing the updated record back under its own `port`
key. -/
structure DiagSt where
  cur : Option CableTestResult
  results : List (Nat × CableTestResult)

/-- The pair-row part of a `_parse_cable_diag_output` loop iteration
(everything after the `gi<N>` header check). -/
def diagPairScan (st : DiagSt) (line : String) : DiagSt :=
  match st.cur with
  | none => st
  | some current_result =>
    match diagPairSearch line with
    | none => st
    | some (pair_index, lenGroup, statGroup) =>
      let length_str := pyStrip lenGroup
      let status_str := pyStrip statGroup
      let length : Option ℚ :=
        if pyLower length_str = "n/a" ∨ pyLower length_str = "na" ∨
            pyLower length_str = "-" ∨ pyLower length_str = "" then none
        else pyFloat? length_str
      let status := _normalize_cable_status status_str
      let r' := _set_pair_result current_result pair_index status length
      ⟨some r', dinsert current_result.port r' st.results⟩

/-- One line of `_parse_cable_diag_output`. -/
def diagStep (st : DiagSt) (rawLine : String) : DiagSt :=
  let line := pyStrip rawLine
  if line = "" then st
  else if pyStartsWith line "-" ∨ pyStartsWith line "=" ∨
      pyStartsWith line "Port" ∨ pyContains line "--------" then st
  else
    match giHeaderMatch line with
    | some current_port =>
      let r0 : CableTestResult := { port := current_port }
      if pyContains (pyLower line) "fiber" then
        let r1 := { r0 with
          pair_1_status := STATUS_FIBER
          pair_2_status := STATUS_FIBER
          pair_3_status := STATUS_FIBER
          pair_4_status := STATUS_FIBER }
        ⟨some r1, dinsert current_port r1 st.results⟩
      else
        diagPairScan ⟨some r0, dinsert current_port r0 st.results⟩ line
    | none => diagPairScan st line

/-- `_parse_cable_diag_output` on an already-split line list. -/
def parseCableDiagLines (ls : List String) : DiagSt :=
  ls.foldl diagStep ⟨none, []⟩

/-- The record produced for a fiber port: all four pairs `Fiber`, all
lengths absent. -/
def fiberResult (p : Nat) : CableTestResult :=
  { port := p
    pair_1_status := STATUS_FIBER
    pair_2_status := STATUS_FIBER
    pair_3_status := STATUS_FIBER
    pair_4_status := STATUS_FIBER }

/-- `UniFiSSHClient._parse_cable_diag_output`. -/
def _parse_cable_diag_output (output : String) : List (Nat × CableTestResult) :=
  (parseCableDiagLines (pyLines (pyStrip output))).results

/-! ## Key-consistency checks (for the per-port parser invariants) -/

/-- Does every entry of the mapping store a record whose `port`
projection (`f`) equals the key it is stored under? -/
def keyedBy {α : Type} (f : α → Nat) (d : List (Nat × α)) : Bool :=
  d.all (fun kv => f kv.2 == kv.1)

/-- Key consistency for cable-test result maps. -/
def ctKeyed (m : List (Nat × CableTestResult)) : Bool :=
  keyedBy CableTestResult.port m

/-- Key consistency for port-status maps. -/
def psKeyed (m : List (Nat × PortStatus)) : Bool :=
  keyedBy PortStatus.port m

/-! ## Transport: `UniFiSSHClient.run_command`

The stored connection `self._conn` is modelled as `Option Unit`
(`some ()` = a connection object is stored, `none` = cleared).  The
liveness of the remote end and the command's transport outcome are
inputs to the transition function. -/

/-- The three ways the awaited command execution can end inside
`run_command`'s `try` block. -/
inductive CmdOutcome
  | ok (stdout : String)
  | timeout
  | ioError (msg : String)
  deriving DecidableEq, Repr

/-- `UniFiSSHClient.run_command`, as a transition on the stored
connection.  `_ensure_connected` reconnects when the connection is
absent (connect failures raise `UniFiConnectionError` before the body
runs and are outside this transition).  Returns the new value of
`self._conn` together with the command result (`Except.error` =
`UniFiCommandError` with the raised message). -/
def run_command (_conn : Option Unit) (command : String) (timeout : Nat)
    (outcome : CmdOutcome) : Option Unit × Except String String :=
  -- await self._ensure_connected(); assert self._conn is not None
  let conn : Option Unit := some ()
  match outcome with
  | .ok stdout => (conn, .ok stdout)
  | .timeout =>
    -- raise UniFiCommandError(...): the stored connection is NOT cleared
    (conn, .error ("Command '" ++ command ++ "' timed out after " ++
      toString timeout ++ "s"))
  | .ioError msg =>
    -- self._conn = None, then raise UniFiCommandError(...)
    (none, .error ("Command '" ++ command ++ "' failed: " ++ msg))

/-! ## CLI session driver: the read loop of
`UniFiSSHClient.run_cli_commands`

The loop is driven by wall-clock time and chunked reads; it is modelled
over a script of read events.  Each event is either a chunk arriving
after `dt` seconds, or a 3-second per-read timeout (`asyncio.wait_for`
with `timeout=3.0`).  An empty chunk is EOF.  When the script is
exhausted every further read times out, leaving the collected output
unchanged until the deadline — so the model returns the accumulator.
Time is in whole seconds (`Nat`), which the claims do not depend on. -/

/-- One read attempt in the CLI read loop. -/
inductive ReadEv
  | chunk (dt : Nat) (s : String)
  | timeout
  deriving DecidableEq, Repr

/-- The `while asyncio.get_event_loop().time() < deadline` read loop of
`run_cli_commands`: returns the collected output.  A per-read timeout
re-sends the exit sentinel and continues; EOF (empty chunk) breaks;
deadline expiry falls out of the loop.  In every case the function
*returns* `collected_output` — no exception escapes the loop. -/
def cliReadLoop (deadline : Nat) : List ReadEv → Nat → String → String
  | [], _, collected => collected
  | ev :: evs, t, collected =>
    if t < deadline then
      match ev with
      | .timeout => cliReadLoop deadline evs (t + 3) collected
      | .chunk dt s =>
        if s = "" then collected
        else cliReadLoop deadline evs (t + dt) (collected ++ s)
    else collected

/-- `UniFiSSHClient.run_cli_commands`, restricted to its read phase (the
write phase only sends sentinels and sleeps).  `Except.error` would be a
raised `UniFiCommandError`; the `except asyncio.TimeoutError` clause of
the source (return collected output if nonempty, else raise) is
unreachable from deadline expiry, because the per-read timeout is caught
inside the loop and the deadline check merely exits the `while`, after
which the collected output is returned — hence the model always returns
`Except.ok`. -/
def run_cli_commands (timeout : Nat) (evs : List ReadEv) : Except String String :=
  .ok (cliReadLoop timeout evs 0 "")

/-! ## Orchestrator: `UniFiCableTesterCoordinator.async_request_cable_test`

State fields of the coordinator touched by a test run.  The
`test_started` / `test_completed` timestamps are real time and outside
the embedding.  `self.data` (the accumulated result map published via
`async_set_updated_data`) is modelled directly as the dict. -/

structure CoordState where
  data : List (Nat × CableTestResult)
  port_statuses : List (Nat × PortStatus)
  port_count : Nat
  test_failed_ports : Finset Nat
  test_run_status : String
  test_error_message : Option String
  test_ports_count : Nat
  deriving DecidableEq

/-- What `async_request_cable_test` raises to its caller. -/
inductive RunOutcome
  | ok
  | updateFailed (msg : String)
  deriving DecidableEq, Repr

/-- The ports targeted by a run (`{port}` or `set(range(1, port_count + 1))`). -/
def targetedPorts (port : Option Nat) (port_count : Nat) : Finset Nat :=
  match port with
  | some p => {p}
  | none => Finset.Icc 1 port_count

/-- The shared `except (UniFiConnectionError, UniFiCommandError,
Exception)` handler of `async_request_cable_test`: mark the targeted
ports failed, set status Failed with the exception's message, re-raise
wrapped. -/
def coordFailPath (st : CoordState) (port : Option Nat) (errMsg : String) :
    CoordState × RunOutcome :=
  ({ st with
     test_failed_ports := st.test_failed_ports ∪ targetedPorts port st.port_count
     test_run_status := TEST_RUN_FAILED
     test_error_message := some errMsg },
   .updateFailed ("Cable test failed: " ++ errMsg))

/-- `UniFiCableTesterCoordinator.async_request_cable_test`.  The two
awaited client calls (`run_cable_test` and `get_port_statuses`) are
inputs: `Except.error` is a raised exception carrying its message.
Returns the coordinator state after the run together with what is
raised.  (The `async with self._test_lock` serialization and the
intermediate `Running` publications are scheduling, not state, and are
not modelled beyond the sequential field updates.) -/
def async_request_cable_test (st0 : CoordState) (port : Option Nat)
    (testOutcome : Except String (List (Nat × CableTestResult)))
    (statusOutcome : Except String (List (Nat × PortStatus))) :
    CoordState × RunOutcome :=
  let st := { st0 with
    test_run_status := TEST_RUN_RUNNING
    test_error_message := none
    test_ports_count := match port with | some _ => 1 | none => st0.port_count }
  match testOutcome with
  | .error e => coordFailPath st port e
  | .ok results =>
    match statusOutcome with
    | .error e => coordFailPath st port e
    | .ok ps =>
      let st := { st with port_statuses := ps }
      let merged := dupdate st.data results
      let tested := targetedPorts port st.port_count
      let st := { st with test_failed_ports := st.test_failed_ports \ tested }
      if results.isEmpty then
        -- raise UpdateFailed("Cable test returned no results"), caught by
        -- the dedicated `except UpdateFailed` handler and re-raised
        let st := { st with test_failed_ports := st.test_failed_ports ∪ tested }
        ({ st with
           test_run_status := TEST_RUN_FAILED
           test_error_message := some "No results returned" },
         .updateFailed "Cable test returned no results")
      else
        ({ st with
           test_run_status := TEST_RUN_COMPLETED
           test_ports_count := results.length
           data := merged },
         .ok)

/-! # Theorems -/

/-! ## General helper lemmas -/

theorem strDataAppend (a b : String) : (a ++ b).data = a.data ++ b.data := by
  cases a; cases b; rfl

theorem startsWithL_nil (t : List Char) : startsWithL t [] = true := by
  cases t <;> rfl

theorem startsWithL_cons (h n : Char) (hs ns : List Char) :
    startsWithL (h :: hs) (n :: ns) = ((h = n : Bool) && startsWithL hs ns) := rfl

theorem containsL_of_startsWithL (hay needle : List Char)
    (h : startsWithL hay needle = true) : containsL hay needle = true := by
  cases hay with
  | nil => exact h
  | cons c rest => simp [containsL, h]

theorem dlookup_dinsert_self (k : Nat) (v : α) (d : List (Nat × α)) :
    dlookup k (dinsert k v d) = some v := by
  induction d with
  | nil => simp [dinsert, dlookup]
  | cons kv rest ih =>
    obtain ⟨k', v'⟩ := kv
    by_cases h : k' = k
    · subst h; simp [dinsert, dlookup]
    · simp [dinsert, dlookup, h, ih]

theorem dlookup_dinsert_ne (k k' : Nat) (v : α) (d : List (Nat × α))
    (h : ¬ k' = k) : dlookup k (dinsert k' v d) = dlookup k d := by
  induction d with
  | nil => simp [dinsert, dlookup, h]
  | cons kv rest ih =>
    obtain ⟨k'', v''⟩ := kv
    by_cases h2 : k'' = k'
    · subst h2; simp [dinsert, dlookup, h, ih]
    · simp [dinsert, dlookup, h2, ih]

/-- Generic fold invariant preservation. -/
theorem foldl_inv {α β : Type} (step : α → β → α) (P : α → Prop)
    (hstep : ∀ a b, P a → P (step a b)) :
    ∀ (ls : List β) (a : α), P a → P (ls.foldl step a)
  | [], _, h => h
  | b :: ls, a, h => foldl_inv step P hstep ls (step a b) (hstep a b h)

theorem setPair_port (r : CableTestResult) (i : Nat) (status : String)
    (len : Option ℚ) : (_set_pair_result r i status len).port = r.port := by
  unfold _set_pair_result
  split_ifs <;> rfl

/-! ## C3 / C4 helper lemmas on the normalizer branch chains -/

theorem normalizeStatusCore_cases (s : String) :
    normalizeStatusCore s = STATUS_OK ∨ normalizeStatusCore s = STATUS_OPEN ∨
    normalizeStatusCore s = STATUS_SHORT ∨
    normalizeStatusCore s = STATUS_NOT_TESTED ∨
    normalizeStatusCore s = STATUS_UNKNOWN := by
  unfold normalizeStatusCore
  split_ifs <;> tauto

theorem normalizeCableCore_cases (s : String) :
    normalizeCableCore s = STATUS_OK ∨ normalizeCableCore s = STATUS_OPEN ∨
    normalizeCableCore s = STATUS_SHORT ∨
    normalizeCableCore s = STATUS_NOT_TESTED ∨
    normalizeCableCore s = STATUS_UNKNOWN := by
  unfold normalizeCableCore
  split_ifs <;> tauto

theorem ns_cases (x : String) :
    _normalize_status x = STATUS_OK ∨ _normalize_status x = STATUS_OPEN ∨
    _normalize_status x = STATUS_SHORT ∨
    _normalize_status x = STATUS_NOT_TESTED ∨
    _normalize_status x = STATUS_UNKNOWN :=
  normalizeStatusCore_cases (pyLower (pyStrip x))

theorem ncs_cases (x : String) :
    _normalize_cable_status x = STATUS_OK ∨ _normalize_cable_status x = STATUS_OPEN ∨
    _normalize_cable_status x = STATUS_SHORT ∨
    _normalize_cable_status x = STATUS_NOT_TESTED ∨
    _normalize_cable_status x = STATUS_UNKNOWN :=
  normalizeCableCore_cases (pyLower (pyStrip x))

theorem cableCore_eq_specCore (t : String) :
    normalizeCableCore t = specNormalizeCore t := by
  unfold normalizeCableCore specNormalizeCore
  split_ifs <;> tauto

theorem statusCore_eq_specCore_of_ne (t : String) (h : ¬ t = "not supported") :
    normalizeStatusCore t = specNormalizeCore t := by
  unfold normalizeStatusCore specNormalizeCore
  split_ifs <;> tauto

/-! ## Claim C3 -/

/-- C3 (counterexample): status normalization is *not* idempotent.  For
the input `"n/a"` both normalizers return the canonical `"Not Tested"`,
but re-normalizing `"Not Tested"` returns `"Unknown"` (neither branch
chain recognises the canonical Not-Tested value itself), so
`normalize(normalize "n/a") ≠ normalize "n/a"` for both
`_normalize_status` and `_normalize_cable_status`. -/
theorem C3_counterexample :
    _normalize_status "n/a" = STATUS_NOT_TESTED ∧
    _normalize_status (_normalize_status "n/a") = STATUS_UNKNOWN ∧
    ¬ _normalize_status (_normalize_status "n/a") = _normalize_status "n/a" ∧
    _normalize_cable_status "n/a" = STATUS_NOT_TESTED ∧
    _normalize_cable_status (_normalize_cable_status "n/a") = STATUS_UNKNOWN ∧
    ¬ _normalize_cable_status (_normalize_cable_status "n/a") =
        _normalize_cable_status "n/a" := by
  decide

/-- C3 (amended): both normalizers are total — every input maps to one
of the five canonical values OK / Open / Short / Not Tested / Unknown —
and both are idempotent on every input except those normalizing to
`Not Tested`: when `normalize x = "Not Tested"`, a second application
yields `"Unknown"`. -/
theorem C3_normalization_total_idem (x : String) :
    (_normalize_status x = STATUS_OK ∨ _normalize_status x = STATUS_OPEN ∨
     _normalize_status x = STATUS_SHORT ∨ _normalize_status x = STATUS_NOT_TESTED ∨
     _normalize_status x = STATUS_UNKNOWN) ∧
    (_normalize_cable_status x = STATUS_OK ∨ _normalize_cable_status x = STATUS_OPEN ∨
     _normalize_cable_status x = STATUS_SHORT ∨
     _normalize_cable_status x = STATUS_NOT_TESTED ∨
     _normalize_cable_status x = STATUS_UNKNOWN) ∧
    (_normalize_status (_normalize_status x) = _normalize_status x ∨
      (_normalize_status x = STATUS_NOT_TESTED ∧
       _normalize_status (_normalize_status x) = STATUS_UNKNOWN)) ∧
    (_normalize_cable_status (_normalize_cable_status x) = _normalize_cable_status x ∨
      (_normalize_cable_status x = STATUS_NOT_TESTED ∧
       _normalize_cable_status (_normalize_cable_status x) = STATUS_UNKNOWN)) := by
  refine ⟨ns_cases x, ncs_cases x, ?_, ?_⟩
  · rcases ns_cases x with h | h | h | h | h <;> rw [h] <;> decide
  · rcases ncs_cases x with h | h | h | h | h <;> rw [h] <;> decide

/-! ## Claim C4 -/

/-- C4 (counterexample): the two normalizers do *not* agree on every
input.  On `"Not Supported"` the CLI-dialect normalizer
(`_normalize_cable_status`) returns `Not Tested` — matching the spec's
mapping — while the legacy normalizer (`_normalize_status`), whose
Not-Tested branch lacks the `"not supported"` token, returns
`Unknown`. -/
theorem C4_counterexample :
    _normalize_cable_status "Not Supported" = STATUS_NOT_TESTED ∧
    _normalize_status "Not Supported" = STATUS_UNKNOWN ∧
    ¬ _normalize_status "Not Supported" = _normalize_cable_status "Not Supported" := by
  decide

/-- C4 (amended): `_normalize_cable_status` realizes the spec's mapping
exactly on every input; `_normalize_status` agrees with it on every
input except those whose stripped-and-lowered form is
`"not supported"`, which it maps to Unknown where the spec mapping (and
`_normalize_cable_status`) give Not Tested. -/
theorem C4_shared_mapping (x : String) :
    _normalize_cable_status x = specNormalize x ∧
    (_normalize_status x = specNormalize x ∨
      (pyLower (pyStrip x) = "not supported" ∧
       _normalize_status x = STATUS_UNKNOWN ∧
       specNormalize x = STATUS_NOT_TESTED)) := by
  constructor
  · exact cableCore_eq_specCore (pyLower (pyStrip x))
  · by_cases h : pyLower (pyStrip x) = "not supported"
    · right
      refine ⟨h, ?_, ?_⟩
      · have hx : _normalize_status x = normalizeStatusCore (pyLower (pyStrip x)) := rfl
        rw [hx, h]; decide
      · have hx : specNormalize x = specNormalizeCore (pyLower (pyStrip x)) := rfl
        rw [hx, h]; decide
    · exact Or.inl (statusCore_eq_specCore_of_ne (pyLower (pyStrip x)) h)

/-! ## Claim C6 -/

/-- C6 (counterexample): a command timeout raises `UniFiCommandError`
but does **not** invalidate the stored connection — `run_command` leaves
`self._conn` set on the timeout path (the `self._conn = None` clearing
happens only in the `asyncssh.Error / OSError` handler), contradicting
the claim that both CommandError paths invalidate it. -/
theorem C6_counterexample :
    run_command (some ()) "swctrl port show" 30 CmdOutcome.timeout =
      (some (), Except.error "Command 'swctrl port show' timed out after 30s") ∧
    ¬ (some () : Option Unit) = none := by
  decide

/-- C6 (amended): of the two `UniFiCommandError` paths of `run_command`,
only the mid-command I/O failure path clears the stored connection (so
the next call reconnects); the timeout path raises the error with the
connection left in place. -/
theorem C6_invalidate_on_io_only (conn : Option Unit) (cmd : String)
    (t : Nat) (m : String) :
    (run_command conn cmd t CmdOutcome.timeout).1 = some () ∧
    (∃ msg, (run_command conn cmd t CmdOutcome.timeout).2 = Except.error msg) ∧
    (run_command conn cmd t (CmdOutcome.ioError m)).1 = none ∧
    (∃ msg, (run_command conn cmd t (CmdOutcome.ioError m)).2 = Except.error msg) :=
  ⟨rfl, ⟨_, rfl⟩, rfl, ⟨_, rfl⟩⟩

/-! ## Claim C2 -/

/-- C2 (code behaviour at the failing input): when the overall deadline
expires, the read loop of `run_cli_commands` falls out of the `while`
and *returns* the collected output — even when nothing at all was
collected, where the source's `except asyncio.TimeoutError` clause (the
branch that would raise `UniFiCommandError`) is unreachable, because the
per-read timeout is caught inside the loop.  With a 60-second deadline
and every 3-second read timing out, the call returns `ok ""` instead of
raising; with one early chunk it returns that chunk. -/
theorem C2_deadline_expiry_returns :
    run_cli_commands 60 (List.replicate 25 ReadEv.timeout) = Except.ok "" ∧
    run_cli_commands 60 (ReadEv.chunk 1 "abc" :: List.replicate 25 ReadEv.timeout) =
      Except.ok "abc" := by
  decide

/-! ## Claim C1 -/

theorem coordMsgNe (e : String) :
    ¬ ("Cable test failed: " ++ e : String) = "Cable test returned no results" := by
  intro h
  have hd : ("Cable test failed: " : String).data ++ e.data =
      ("Cable test returned no results" : String).data := by
    rw [← strDataAppend, h]
  have ht := congrArg (List.take 12) hd
  rw [List.take_append_eq_append_take] at ht
  have h19 : ("Cable test failed: " : String).data.length = 19 := by decide
  rw [h19] at ht
  simp only [show (12 - 19 : Nat) = 0 from rfl, List.take_zero, List.append_nil] at ht
  exact absurd ht (by decide)

/-- C1: a single-port run whose cable test returns an *empty* parsed
result map with no transport exception leaves the accumulated data map
(and so every other port's previously accumulated `CableTestResult`)
unchanged, adds exactly the targeted port `p` to the failed-port set,
sets the run status to Failed with the explanatory message
`"No results returned"`, and raises
`UpdateFailed "Cable test returned no results"` — an outcome distinct
from the one produced by any transport-exception run (whose raised
message is `"Cable test failed: " ++ e`). -/
theorem C1_empty_single_port (st : CoordState) (p : Nat)
    (ps : List (Nat × PortStatus)) :
    (async_request_cable_test st (some p) (Except.ok []) (Except.ok ps)).1.data =
      st.data ∧
    (async_request_cable_test st (some p) (Except.ok []) (Except.ok ps)).1.test_failed_ports =
      st.test_failed_ports ∪ {p} ∧
    (async_request_cable_test st (some p) (Except.ok []) (Except.ok ps)).1.test_run_status =
      TEST_RUN_FAILED ∧
    (async_request_cable_test st (some p) (Except.ok []) (Except.ok ps)).1.test_error_message =
      some "No results returned" ∧
    (async_request_cable_test st (some p) (Except.ok []) (Except.ok ps)).2 =
      RunOutcome.updateFailed "Cable test returned no results" ∧
    ∀ e, ¬ (async_request_cable_test st (some p) (Except.error e) (Except.ok ps)).2 =
      (async_request_cable_test st (some p) (Except.ok []) (Except.ok ps)).2 := by
  refine ⟨rfl, ?_, rfl, rfl, rfl, ?_⟩
  · show (st.test_failed_ports \ {p}) ∪ {p} = st.test_failed_ports ∪ {p}
    exact Finset.sdiff_union_self_eq_union
  · intro e h
    have h2 : ("Cable test failed: " ++ e : String) = "Cable test returned no results" :=
      RunOutcome.updateFailed.inj h
    exact coordMsgNe e h2

/-! ## Claim C8 -/

theorem foldlMax_eq (f : String → Option Nat) (ls : List String) :
    ∀ a : Nat,
      ls.foldl (fun max_port line =>
        match f line with
        | some port_num => Nat.max max_port port_num
        | none => max_port) a =
      Nat.max a ((ls.filterMap f).foldr Nat.max 0) := by
  induction ls with
  | nil => intro a; simp
  | cons l ls ih =>
    intro a
    rw [List.foldl_cons, List.filterMap_cons]
    cases hf : f l with
    | none => simp only [hf]; exact ih a
    | some n =>
      simp only [hf, List.foldr_cons]
      rw [ih (Nat.max a n)]
      exact Nat.max_assoc a n _

/-! ## Claim C9 helper lemmas -/

theorem dropWhile_append_ne (p : Char → Bool) (a b : List Char)
    (h : ¬ a.dropWhile p = []) :
    (a ++ b).dropWhile p = a.dropWhile p ++ b := by
  induction a with
  | nil => simp at h
  | cons c a ih =>
    by_cases hc : p c = true
    · simp only [List.cons_append, List.dropWhile_cons, hc, if_true] at h ⊢
      exact ih h
    · rw [Bool.not_eq_true] at hc
      simp only [List.cons_append, List.dropWhile_cons, hc, Bool.false_eq_true,
        if_false, List.cons_append]

theorem dropTrailing_append (p : Char → Bool) (l1 l2 : List Char)
    (h : ¬ dropTrailing p l2 = []) :
    dropTrailing p (l1 ++ l2) = l1 ++ dropTrailing p l2 := by
  unfold dropTrailing at h ⊢
  rw [List.reverse_append]
  rw [dropWhile_append_ne p l2.reverse l1.reverse (by
    intro h0; exact h (by rw [h0]; rfl))]
  rw [List.reverse_append, List.reverse_reverse]

theorem dropTrailing_idem (p : Char → Bool) (l : List Char) :
    dropTrailing p (dropTrailing p l) = dropTrailing p l := by
  unfold dropTrailing
  rw [List.reverse_reverse]
  exact congrArg List.reverse (List.dropWhile_idempotent p l.reverse)

theorem startsWithL_append_self (a b : List Char) :
    startsWithL (a ++ b) a = true := by
  induction a with
  | nil => exact startsWithL_nil b
  | cons c a ih => simp [List.cons_append, startsWithL_cons, ih]

theorem splitFirst_append (d : Char) (a b : List Char)
    (h : a.all (fun c => ¬ c = d) = true) :
    splitFirst d (a ++ d :: b) = some (a, b) := by
  induction a with
  | nil => simp [splitFirst]
  | cons c a ih =>
    rw [List.all_cons] at h
    have hc : ¬ c = d := by
      intro hcd
      rw [hcd] at h
      simp at h
    have ha : a.all (fun c => ¬ c = d) = true := by
      rcases Bool.and_eq_true_iff.mp h with ⟨_, h2⟩
      exact h2
    rw [List.cons_append]
    simp [splitFirst, hc, ih ha]

theorem strMkEqEmpty (l : List Char) : ((⟨l⟩ : String) = "") ↔ l = [] := by
  constructor
  · intro h
    have := congrArg String.data h
    simpa using this
  · intro h; rw [h]

/-- Per-field characterization of one `_parse_switch_info` loop
iteration: the hostname after the step is the line's hostname-branch
value when that branch assigns, and is untouched otherwise (every other
branch of the loop body writes a different field). -/
theorem siStep_hostname_char (info : SwitchInfo) (l : String) :
    (siStep info l).hostname =
      match siHostnameVal l with
      | some v => v
      | none => info.hostname := by
  simp only [siStep, siHostnameVal]
  by_cases h0 : pyStrip l = ""
  · rw [if_pos h0, if_pos h0]
  · rw [if_neg h0, if_neg h0]
    by_cases hkw : (pyContains (pyLower (pyStrip l)) "hostname" = true ∨
        pyContains (pyLower (pyStrip l)) "host name" = true ∨
        pyContains (pyLower (pyStrip l)) "system name" = true ∨
        pyContains (pyLower (pyStrip l)) "device name" = true)
    · rw [if_pos hkw, if_pos hkw]
      cases hv : valueAfterDelim (pyStrip l) with
      | none => rfl
      | some v =>
        by_cases hve : v = ""
        · simp [hve]
        · simp [hve]
    · rw [if_neg hkw, if_neg hkw]
      by_cases hm : (pyContains (pyLower (pyStrip l)) "model" = true ∨
          pyContains (pyLower (pyStrip l)) "board name" = true ∨
          pyContains (pyLower (pyStrip l)) "product" = true)
      · rw [if_pos hm]
        cases hv : valueAfterDelim (pyStrip l) with
        | none => rfl
        | some v =>
          by_cases hve : v = ""
          · simp [hve]
          · simp [hve]
      · rw [if_neg hm]
        by_cases hvk : (pyContains (pyLower (pyStrip l)) "version" = true ∨
            pyContains (pyLower (pyStrip l)) "firmware" = true)
        · rw [if_pos hvk]
          cases hv : valueAfterDelim (pyStrip l) with
          | none => rfl
          | some v =>
            by_cases hve : v = ""
            · simp [hve]
            · simp [hve]
        · rw [if_neg hvk]
          by_cases hmac : pyContains (pyLower (pyStrip l)) "mac" = true
          · rw [if_pos hmac]
            cases hms : macSearch (pyStrip l) with
            | some m => rfl
            | none =>
              cases hv : valueAfterDelim (pyStrip l) with
              | none => rfl
              | some v =>
                by_cases hve : v = ""
                · simp [hve]
                · simp only [hve]
                  cases macSearch v <;> simp [hve]
          · rw [if_neg hmac]

/-- Per-field characterization of one `_parse_switch_info` loop
iteration: the model field. -/
theorem siStep_model_char (info : SwitchInfo) (l : String) :
    (siStep info l).model =
      match siModelVal l with
      | some v => v
      | none => info.model := by
  simp only [siStep, siModelVal]
  by_cases h0 : pyStrip l = ""
  · rw [if_pos h0, if_pos h0]
  · rw [if_neg h0, if_neg h0]
    by_cases hkw : (pyContains (pyLower (pyStrip l)) "hostname" = true ∨
        pyContains (pyLower (pyStrip l)) "host name" = true ∨
        pyContains (pyLower (pyStrip l)) "system name" = true ∨
        pyContains (pyLower (pyStrip l)) "device name" = true)
    · rw [if_pos hkw, if_pos hkw]
      cases hv : valueAfterDelim (pyStrip l) with
      | none => rfl
      | some v =>
        by_cases hve : v = ""
        · simp [hve]
        · simp [hve]
    · rw [if_neg hkw, if_neg hkw]
      by_cases hm : (pyContains (pyLower (pyStrip l)) "model" = true ∨
          pyContains (pyLower (pyStrip l)) "board name" = true ∨
          pyContains (pyLower (pyStrip l)) "product" = true)
      · rw [if_pos hm, if_pos hm]
        cases hv : valueAfterDelim (pyStrip l) with
        | none => rfl
        | some v =>
          by_cases hve : v = ""
          · simp [hve]
          · simp [hve]
      · rw [if_neg hm, if_neg hm]
        by_cases hvk : (pyContains (pyLower (pyStrip l)) "version" = true ∨
            pyContains (pyLower (pyStrip l)) "firmware" = true)
        · rw [if_pos hvk]
          cases hv : valueAfterDelim (pyStrip l) with
          | none => rfl
          | some v =>
            by_cases hve : v = ""
            · simp [hve]
            · simp [hve]
        · rw [if_neg hvk]
          by_cases hmac : pyContains (pyLower (pyStrip l)) "mac" = true
          · rw [if_pos hmac]
            cases hms : macSearch (pyStrip l) with
            | some m => rfl
            | none =>
              cases hv : valueAfterDelim (pyStrip l) with
              | none => rfl
              | some v =>
                by_cases hve : v = ""
                · simp [hve]
                · simp only [hve]
                  cases macSearch v <;> simp [hve]
          · rw [if_neg hmac]

/-- Per-field characterization of one `_parse_switch_info` loop
iteration: the version field. -/
theorem siStep_version_char (info : SwitchInfo) (l : String) :
    (siStep info l).version =
      match siVersionVal l with
      | some v => some v
      | none => info.version := by
  simp only [siStep, siVersionVal]
  by_cases h0 : pyStrip l = ""
  · rw [if_pos h0, if_pos h0]
  · rw [if_neg h0, if_neg h0]
    by_cases hkw : (pyContains (pyLower (pyStrip l)) "hostname" = true ∨
        pyContains (pyLower (pyStrip l)) "host name" = true ∨
        pyContains (pyLower (pyStrip l)) "system name" = true ∨
        pyContains (pyLower (pyStrip l)) "device name" = true)
    · rw [if_pos hkw, if_pos hkw]
      cases hv : valueAfterDelim (pyStrip l) with
      | none => rfl
      | some v =>
        by_cases hve : v = ""
        · simp [hve]
        · simp [hve]
    · rw [if_neg hkw, if_neg hkw]
      by_cases hm : (pyContains (pyLower (pyStrip l)) "model" = true ∨
          pyContains (pyLower (pyStrip l)) "board name" = true ∨
          pyContains (pyLower (pyStrip l)) "product" = true)
      · rw [if_pos hm, if_pos hm]
        cases hv : valueAfterDelim (pyStrip l) with
        | none => rfl
        | some v =>
          by_cases hve : v = ""
          · simp [hve]
          · simp [hve]
      · rw [if_neg hm, if_neg hm]
        by_cases hvk : (pyContains (pyLower (pyStrip l)) "version" = true ∨
            pyContains (pyLower (pyStrip l)) "firmware" = true)
        · rw [if_pos hvk, if_pos hvk]
          cases hv : valueAfterDelim (pyStrip l) with
          | none => rfl
          | some v =>
            by_cases hve : v = ""
            · simp [hve]
            · simp [hve]
        · rw [if_neg hvk, if_neg hvk]
          by_cases hmac : pyContains (pyLower (pyStrip l)) "mac" = true
          · rw [if_pos hmac]
            cases hms : macSearch (pyStrip l) with
            | some m => rfl
            | none =>
              cases hv : valueAfterDelim (pyStrip l) with
              | none => rfl
              | some v =>
                by_cases hve : v = ""
                · simp [hve]
                · simp only [hve]
                  cases macSearch v <;> simp [hve]
          · rw [if_neg hmac]

/-- Per-field characterization of one `_parse_switch_info` loop
iteration: the MAC field. -/
theorem siStep_mac_char (info : SwitchInfo) (l : String) :
    (siStep info l).mac =
      match siMacVal l with
      | some v => some v
      | none => info.mac := by
  simp only [siStep, siMacVal]
  by_cases h0 : pyStrip l = ""
  · rw [if_pos h0, if_pos h0]
  · rw [if_neg h0, if_neg h0]
    by_cases hkw : (pyContains (pyLower (pyStrip l)) "hostname" = true ∨
        pyContains (pyLower (pyStrip l)) "host name" = true ∨
        pyContains (pyLower (pyStrip l)) "system name" = true ∨
        pyContains (pyLower (pyStrip l)) "device name" = true)
    · rw [if_pos hkw, if_pos hkw]
      cases hv : valueAfterDelim (pyStrip l) with
      | none => rfl
      | some v =>
        by_cases hve : v = ""
        · simp [hve]
        · simp [hve]
    · rw [if_neg hkw, if_neg hkw]
      by_cases hm : (pyContains (pyLower (pyStrip l)) "model" = true ∨
          pyContains (pyLower (pyStrip l)) "board name" = true ∨
          pyContains (pyLower (pyStrip l)) "product" = true)
      · rw [if_pos hm, if_pos hm]
        cases hv : valueAfterDelim (pyStrip l) with
        | none => rfl
        | some v =>
          by_cases hve : v = ""
          · simp [hve]
          · simp [hve]
      · rw [if_neg hm, if_neg hm]
        by_cases hvk : (pyContains (pyLower (pyStrip l)) "version" = true ∨
            pyContains (pyLower (pyStrip l)) "firmware" = true)
        · rw [if_pos hvk, if_pos hvk]
          cases hv : valueAfterDelim (pyStrip l) with
          | none => rfl
          | some v =>
            by_cases hve : v = ""
            · simp [hve]
            · simp [hve]
        · rw [if_neg hvk, if_neg hvk]
          by_cases hmac : pyContains (pyLower (pyStrip l)) "mac" = true
          · rw [if_pos hmac, if_pos hmac]
            cases hms : macSearch (pyStrip l) with
            | some m => rfl
            | none =>
              cases hv : valueAfterDelim (pyStrip l) with
              | none => rfl
              | some v =>
                by_cases hve : v = ""
                · simp [hve]
                · simp only [hve]
                  cases macSearch v <;> simp [hve]
          · rw [if_neg hmac, if_neg hmac]

/-- Lines whose hostname branch does not fire leave the hostname
unchanged through the whole fold. -/
theorem si_fold_hostname :
    ∀ (post : List String) (info : SwitchInfo),
      (∀ l ∈ post, siHostnameVal l = none) →
      (post.foldl siStep info).hostname = info.hostname
  | [], _, _ => rfl
  | l :: post, info, hall => by
    rw [List.foldl_cons]
    rw [si_fold_hostname post _ (fun l2 hl2 => hall l2 (by simp [hl2]))]
    rw [siStep_hostname_char, hall l (by simp)]

/-- Lines whose model branch does not fire leave the model unchanged
through the whole fold. -/
theorem si_fold_model :
    ∀ (post : List String) (info : SwitchInfo),
      (∀ l ∈ post, siModelVal l = none) →
      (post.foldl siStep info).model = info.model
  | [], _, _ => rfl
  | l :: post, info, hall => by
    rw [List.foldl_cons]
    rw [si_fold_model post _ (fun l2 hl2 => hall l2 (by simp [hl2]))]
    rw [siStep_model_char, hall l (by simp)]

/-- Lines whose version branch does not fire leave the version
unchanged through the whole fold. -/
theorem si_fold_version :
    ∀ (post : List String) (info : SwitchInfo),
      (∀ l ∈ post, siVersionVal l = none) →
      (post.foldl siStep info).version = info.version
  | [], _, _ => rfl
  | l :: post, info, hall => by
    rw [List.foldl_cons]
    rw [si_fold_version post _ (fun l2 hl2 => hall l2 (by simp [hl2]))]
    rw [siStep_version_char, hall l (by simp)]

/-- Lines whose MAC branch does not fire leave the MAC unchanged
through the whole fold. -/
theorem si_fold_mac :
    ∀ (post : List String) (info : SwitchInfo),
      (∀ l ∈ post, siMacVal l = none) →
      (post.foldl siStep info).mac = info.mac
  | [], _, _ => rfl
  | l :: post, info, hall => by
    rw [List.foldl_cons]
    rw [si_fold_mac post _ (fun l2 hl2 => hall l2 (by simp [hl2]))]
    rw [siStep_mac_char, hall l (by simp)]

/-! ## Claim C9 -/

/-- C9 (counterexample): in `_parse_switch_info`, a later duplicate line
*does* overwrite the value extracted from the first match: for
`"hostname: alpha\nhostname: beta"` the parsed hostname is `"beta"`,
not the first match's `"alpha"`. -/
theorem C9_counterexample :
    (_parse_switch_info "hostname: alpha\nhostname: beta").hostname = "beta" ∧
    ¬ ("beta" : String) = "alpha" := by
  decide

/-- C9 (amended): for each field of the switch-identity parser
(hostname, model, version, MAC), the *last* line that matches the
field's branch with a nonempty extracted value determines the field:
after any prefix, a line assigning value `v` to the field followed by
any lines that do not assign that field yields `v` — later duplicate
lines overwrite earlier matches (last match wins, not first). -/
theorem C9_last_match_wins :
    (∀ (pre post : List String) (L v : String),
      siHostnameVal L = some v → (∀ l ∈ post, siHostnameVal l = none) →
      (parseSwitchInfoLines (pre ++ L :: post)).hostname = v) ∧
    (∀ (pre post : List String) (L v : String),
      siModelVal L = some v → (∀ l ∈ post, siModelVal l = none) →
      (parseSwitchInfoLines (pre ++ L :: post)).model = v) ∧
    (∀ (pre post : List String) (L v : String),
      siVersionVal L = some v → (∀ l ∈ post, siVersionVal l = none) →
      (parseSwitchInfoLines (pre ++ L :: post)).version = some v) ∧
    (∀ (pre post : List String) (L v : String),
      siMacVal L = some v → (∀ l ∈ post, siMacVal l = none) →
      (parseSwitchInfoLines (pre ++ L :: post)).mac = some v) := by
  refine ⟨?_, ?_, ?_, ?_⟩ <;>
    (intro pre post L v hL hpost
     unfold parseSwitchInfoLines
     rw [List.foldl_append, List.foldl_cons])
  · rw [si_fold_hostname post _ hpost, siStep_hostname_char, hL]
  · rw [si_fold_model post _ hpost, siStep_model_char, hL]
  · rw [si_fold_version post _ hpost, siStep_version_char, hL]
  · rw [si_fold_mac post _ hpost, siStep_mac_char, hL]

/-- C9 witness: the amended theorem applied, for each field, to a
concrete transcript in which the deciding line is *not* the last line
and, for the hostname, overwrites an earlier match. -/
theorem C9_last_match_wins_witness :
    (parseSwitchInfoLines (["hostname: first"] ++ "hostname: second" :: ["speed: 77"])).hostname =
      "second" ∧
    (parseSwitchInfoLines (([] : List String) ++ "model: USW-24" :: ["junk"])).model =
      "USW-24" ∧
    (parseSwitchInfoLines (([] : List String) ++ "version: 6.5" :: [""])).version =
      some "6.5" ∧
    (parseSwitchInfoLines (([] : List String) ++ "MAC: aa-bb-cc-dd-ee-ff" :: [])).mac =
      some "aa:bb:cc:dd:ee:ff" :=
  ⟨C9_last_match_wins.1 ["hostname: first"] ["speed: 77"] "hostname: second" "second"
      (by decide) (by decide),
   C9_last_match_wins.2.1 [] ["junk"] "model: USW-24" "USW-24" (by decide) (by decide),
   C9_last_match_wins.2.2.1 [] [""] "version: 6.5" "6.5" (by decide) (by decide),
   C9_last_match_wins.2.2.2 [] [] "MAC: aa-bb-cc-dd-ee-ff" "aa:bb:cc:dd:ee:ff"
      (by decide) (by decide)⟩

/-! ## Claim C5 helper lemmas -/

theorem giHeader_shape (t : String) (p : Nat) (h : giHeaderMatch t = some p) :
    ∃ rest, t.data = 'g' :: 'i' :: rest := by
  unfold giHeaderMatch at h
  split at h
  · next rest heq => exact ⟨rest, heq⟩
  · exact absurd h (by simp)

/-- Processing a `gi<p>` header line whose text contains the fiber
keyword: whatever the incoming state, the port's entry becomes the
all-Fiber record and becomes the current result. -/
theorem diagStep_fiber_header (st : DiagSt) (hdr : String) (p : Nat)
    (h1 : giHeaderMatch (pyStrip hdr) = some p)
    (h2 : pyContains (pyLower (pyStrip hdr)) "fiber" = true)
    (h3 : pyContains (pyStrip hdr) "--------" = false) :
    diagStep st hdr = ⟨some (fiberResult p), dinsert p (fiberResult p) st.results⟩ := by
  obtain ⟨rest, hshape⟩ := giHeader_shape _ _ h1
  have hne : ¬ pyStrip hdr = "" := by
    intro h0
    rw [h0] at hshape
    simp at hshape
  have hs1 : pyStartsWith (pyStrip hdr) "-" = false := by
    unfold pyStartsWith
    rw [hshape]
    simp [startsWithL_cons]
  have hs2 : pyStartsWith (pyStrip hdr) "=" = false := by
    unfold pyStartsWith
    rw [hshape]
    simp [startsWithL_cons]
  have hs3 : pyStartsWith (pyStrip hdr) "Port" = false := by
    unfold pyStartsWith
    rw [hshape]
    simp [startsWithL_cons]
  unfold diagStep
  rw [if_neg hne, if_neg (by simp [hs1, hs2, hs3, h3]), h1]
  show (if pyContains (pyLower (pyStrip hdr)) "fiber" = true then _ else _) = _
  rw [if_pos h2]
  rfl

/-- The pair-scan part of a `_parse_cable_diag_output` iteration never
touches port `p`'s stored entry while the current result belongs to a
different port, and keeps the current result away from `p`. -/
theorem diagPairScan_away (p : Nat) (fib : CableTestResult) (st : DiagSt) (l : String)
    (hlk : dlookup p st.results = some fib)
    (hcur : ∀ r, st.cur = some r → ¬ r.port = p) :
    dlookup p (diagPairScan st l).results = some fib ∧
      ∀ r, (diagPairScan st l).cur = some r → ¬ r.port = p := by
  unfold diagPairScan
  cases hc : st.cur with
  | none => exact ⟨hlk, hcur⟩
  | some r0 =>
    have hr0 : ¬ r0.port = p := hcur r0 hc
    cases hs : diagPairSearch l with
    | none => exact ⟨hlk, hcur⟩
    | some m =>
      obtain ⟨i, lenG, statG⟩ := m
      have key : ∀ v : CableTestResult,
          dlookup p (dinsert r0.port v st.results) = some fib := fun v => by
        rw [dlookup_dinsert_ne p r0.port _ _ hr0]
        exact hlk
      constructor
      · exact key _
      · intro r hr
        have hre := Option.some.inj hr
        subst hre
        rw [setPair_port]
        exact hr0

/-- Processing any line that is not a `gi<p>` header for port `p`, from
a state whose current result does not belong to `p`, leaves port `p`'s
entry unchanged and keeps the current result away from `p`. -/
theorem diagStep_away (p : Nat) (fib : CableTestResult) (st : DiagSt) (l : String)
    (hnp : ¬ giHeaderMatch (pyStrip l) = some p)
    (hlk : dlookup p st.results = some fib)
    (hcur : ∀ r, st.cur = some r → ¬ r.port = p) :
    dlookup p (diagStep st l).results = some fib ∧
      ∀ r, (diagStep st l).cur = some r → ¬ r.port = p := by
  simp only [diagStep]
  split_ifs with h0 h1 hf
  · exact ⟨hlk, hcur⟩
  · exact ⟨hlk, hcur⟩
  · cases hg : giHeaderMatch (pyStrip l) with
    | none => exact diagPairScan_away p fib st _ hlk hcur
    | some q =>
      have hqp : ¬ q = p := fun hq => hnp (hq ▸ hg)
      have key : ∀ v : CableTestResult,
          dlookup p (dinsert q v st.results) = some fib := fun v => by
        rw [dlookup_dinsert_ne p q _ _ hqp]
        exact hlk
      constructor
      · exact key _
      · intro r hr
        have hre := Option.some.inj hr
        subst hre
        exact hqp
  · cases hg : giHeaderMatch (pyStrip l) with
    | none => exact diagPairScan_away p fib st _ hlk hcur
    | some q =>
      have hqp : ¬ q = p := fun hq => hnp (hq ▸ hg)
      have key : ∀ v : CableTestResult,
          dlookup p (dinsert q v st.results) = some fib := fun v => by
        rw [dlookup_dinsert_ne p q _ _ hqp]
        exact hlk
      refine diagPairScan_away p fib _ _ (key _) ?_
      intro r hr
      have hre := Option.some.inj hr
      subst hre
      exact hqp

/-- Folding any run of lines containing no `gi<p>` header, from a state
whose current result does not belong to `p`, leaves port `p`'s entry
unchanged. -/
theorem diagFold_away (p : Nat) (fib : CableTestResult) :
    ∀ (ls : List String) (st : DiagSt),
      (∀ l ∈ ls, ¬ giHeaderMatch (pyStrip l) = some p) →
      dlookup p st.results = some fib →
      (∀ r, st.cur = some r → ¬ r.port = p) →
      dlookup p (ls.foldl diagStep st).results = some fib
  | [], _, _, hlk, _ => hlk
  | l :: ls, st, hall, hlk, hcur => by
    rw [List.foldl_cons]
    have hstep := diagStep_away p fib st l (hall l (by simp)) hlk hcur
    exact diagFold_away p fib ls _ (fun l2 hl2 => hall l2 (by simp [hl2]))
      hstep.1 hstep.2

/-- A line that is blank, a skipped separator/header line, or matches
neither the `gi<N>` header pattern nor the pair-data pattern, is a
no-op for the whole parser state. -/
theorem diagStep_inert (st : DiagSt) (l : String)
    (h : pyStrip l = "" ∨
      (pyStartsWith (pyStrip l) "-" = true ∨ pyStartsWith (pyStrip l) "=" = true ∨
        pyStartsWith (pyStrip l) "Port" = true ∨ pyContains (pyStrip l) "--------" = true) ∨
      (giHeaderMatch (pyStrip l) = none ∧ diagPairSearch (pyStrip l) = none)) :
    diagStep st l = st := by
  simp only [diagStep]
  by_cases h0 : pyStrip l = ""
  · rw [if_pos h0]
  · rw [if_neg h0]
    by_cases hskip : (pyStartsWith (pyStrip l) "-" = true ∨
        pyStartsWith (pyStrip l) "=" = true ∨
        pyStartsWith (pyStrip l) "Port" = true ∨
        pyContains (pyStrip l) "--------" = true)
    · rw [if_pos hskip]
    · rw [if_neg hskip]
      rcases h with h | h | ⟨hg, hs⟩
      · exact absurd h h0
      · exact absurd h hskip
      · rw [hg]
        show diagPairScan st (pyStrip l) = st
        unfold diagPairScan
        cases hc : st.cur with
        | none => rfl
        | some r0 => rw [hs]

/-- Folding a run of no-op lines leaves the state unchanged. -/
theorem diagFold_inert :
    ∀ (ls : List String) (st : DiagSt),
      (∀ l ∈ ls, pyStrip l = "" ∨
        (pyStartsWith (pyStrip l) "-" = true ∨ pyStartsWith (pyStrip l) "=" = true ∨
          pyStartsWith (pyStrip l) "Port" = true ∨
          pyContains (pyStrip l) "--------" = true) ∨
        (giHeaderMatch (pyStrip l) = none ∧ diagPairSearch (pyStrip l) = none)) →
      ls.foldl diagStep st = st
  | [], _, _ => rfl
  | l :: ls, st, hall => by
    rw [List.foldl_cons, diagStep_inert st l (hall l (by simp))]
    exact diagFold_inert ls st (fun l2 hl2 => hall l2 (by simp [hl2]))

/-- Processing a header line for a *different* port `q ≠ p` (from any
state) leaves port `p`'s entry unchanged and moves the current result
to port `q`, away from `p` — whatever pair data the header line itself
carries. -/
theorem diagStep_other_header (st : DiagSt) (hdr2 : String) (q p : Nat)
    (fib : CableTestResult)
    (hg : giHeaderMatch (pyStrip hdr2) = some q) (hqp : ¬ q = p)
    (hdash : pyContains (pyStrip hdr2) "--------" = false)
    (hlk : dlookup p st.results = some fib) :
    dlookup p (diagStep st hdr2).results = some fib ∧
      ∀ r, (diagStep st hdr2).cur = some r → ¬ r.port = p := by
  obtain ⟨rest, hshape⟩ := giHeader_shape _ _ hg
  have hne : ¬ pyStrip hdr2 = "" := by
    intro h0
    rw [h0] at hshape
    simp at hshape
  have hs1 : pyStartsWith (pyStrip hdr2) "-" = false := by
    unfold pyStartsWith
    rw [hshape]
    simp [startsWithL_cons]
  have hs2 : pyStartsWith (pyStrip hdr2) "=" = false := by
    unfold pyStartsWith
    rw [hshape]
    simp [startsWithL_cons]
  have hs3 : pyStartsWith (pyStrip hdr2) "Port" = false := by
    unfold pyStartsWith
    rw [hshape]
    simp [startsWithL_cons]
  have key : ∀ v : CableTestResult,
      dlookup p (dinsert q v st.results) = some fib := fun v => by
    rw [dlookup_dinsert_ne p q _ _ hqp]
    exact hlk
  have hstep : diagStep st hdr2 =
      (if pyContains (pyLower (pyStrip hdr2)) "fiber" = true then
        (⟨some (fiberResult q), dinsert q (fiberResult q) st.results⟩ : DiagSt)
      else
        diagPairScan ⟨some { port := q }, dinsert q { port := q } st.results⟩
          (pyStrip hdr2)) := by
    simp only [diagStep]
    rw [if_neg hne, if_neg (by simp [hs1, hs2, hs3, hdash]), hg]
    rfl
  rw [hstep]
  by_cases hf : pyContains (pyLower (pyStrip hdr2)) "fiber" = true
  · rw [if_pos hf]
    refine ⟨key _, ?_⟩
    intro r hr
    have hre := Option.some.inj hr
    subst hre
    exact hqp
  · rw [if_neg hf]
    refine diagPairScan_away p fib _ _ (key _) ?_
    intro r hr
    have hre := Option.some.inj hr
    subst hre
    exact hqp

/-! ## Claim C5 -/

/-- C5 (counterexample): a fiber-medium keyword on a *subsequent* line
of a port's block (not on the `gi<N>` header line itself) does **not**
short-circuit the port's pairs to Fiber: for the transcript
`"gi1 |\nfiber"` — whose port-1 block contains the keyword on its
second line — port 1's pairs stay at the `Not Tested` default, because
the source checks `"fiber" in line.lower()` only inside the
`port_match` branch. -/
theorem C5_counterexample :
    (dlookup 1 (_parse_cable_diag_output "gi1 |\nfiber")).map
      (fun r => r.pair_1_status) = some STATUS_NOT_TESTED ∧
    ¬ STATUS_NOT_TESTED = STATUS_FIBER := by
  decide

/-- C5 (amended): when the fiber keyword occurs on the port's *header*
line itself (a line matching `gi(\d+)\s*\|` after stripping, not
containing the `--------` separator run), all four pairs of that port
resolve to `Fiber` with absent lengths, provided the port's own block —
the lines up to the next port header — contains no pair-data line and
the rest of the transcript (which may hold arbitrary further blocks of
*other* ports, pair rows included) never re-opens port `p`.  A fiber
keyword on a non-header line of the block has no effect, per the
counterexample. -/
theorem C5_fiber_header_all_pairs (pre block rest : List String) (hdr : String) (p : Nat)
    (h1 : giHeaderMatch (pyStrip hdr) = some p)
    (h2 : pyContains (pyLower (pyStrip hdr)) "fiber" = true)
    (h3 : pyContains (pyStrip hdr) "--------" = false)
    (h4 : ∀ l ∈ block, pyStrip l = "" ∨
      (pyStartsWith (pyStrip l) "-" = true ∨ pyStartsWith (pyStrip l) "=" = true ∨
        pyStartsWith (pyStrip l) "Port" = true ∨
        pyContains (pyStrip l) "--------" = true) ∨
      (giHeaderMatch (pyStrip l) = none ∧ diagPairSearch (pyStrip l) = none))
    (h5 : rest = [] ∨ ∃ q hdr2 rest2, rest = hdr2 :: rest2 ∧
      giHeaderMatch (pyStrip hdr2) = some q ∧ ¬ q = p ∧
      pyContains (pyStrip hdr2) "--------" = false ∧
      ∀ l ∈ rest2, ¬ giHeaderMatch (pyStrip l) = some p) :
    dlookup p (parseCableDiagLines (pre ++ hdr :: (block ++ rest))).results =
      some (fiberResult p) := by
  unfold parseCableDiagLines
  rw [List.foldl_append, List.foldl_cons, List.foldl_append]
  rw [diagStep_fiber_header _ hdr p h1 h2 h3]
  rw [diagFold_inert block _ h4]
  have hlk1 : dlookup p
      (dinsert p (fiberResult p) (List.foldl diagStep ⟨none, []⟩ pre).results) =
      some (fiberResult p) := dlookup_dinsert_self p _ _
  rcases h5 with hnil | ⟨q, hdr2, rest2, hre, hg2, hqp, hdash2, hrest2⟩
  · rw [hnil]
    exact hlk1
  · rw [hre, List.foldl_cons]
    have hpair := diagStep_other_header
      ⟨some (fiberResult p),
        dinsert p (fiberResult p) (List.foldl diagStep ⟨none, []⟩ pre).results⟩
      hdr2 q p (fiberResult p) hg2 hqp hdash2 hlk1
    exact diagFold_away p (fiberResult p) rest2 _ hrest2 hpair.1 hpair.2

/-- C5 witness: the amended theorem at a concrete two-port transcript —
a fiber header for port 1 followed by a copper port 2 block with a pair
row. -/
theorem C5_fiber_header_witness :
    dlookup 1 (parseCableDiagLines (([] : List String) ++ "gi1 | Fiber" ::
      (([] : List String) ++
        ["gi2   |  auto  |    Pair A  |    24.00    | Normal"]))).results =
      some (fiberResult 1) :=
  C5_fiber_header_all_pairs [] [] ["gi2   |  auto  |    Pair A  |    24.00    | Normal"]
    "gi1 | Fiber" 1 (by decide) (by decide) (by decide)
    (by intro l hl; exact absurd hl (List.not_mem_nil l))
    (Or.inr ⟨2, "gi2   |  auto  |    Pair A  |    24.00    | Normal", [], rfl,
      by decide, by decide, by decide,
      by intro l hl; exact absurd hl (List.not_mem_nil l)⟩)

/-- C8: `_parse_port_count` returns the maximum of the port indices
extracted by the row matcher (`^U?(\d+)\s+` on each stripped line) over
all lines of the stripped, line-split output — and therefore `0` when no
row matches (including empty input), since the fold over an empty match
list is `0`. -/
theorem C8_port_count_is_max (output : String) :
    _parse_port_count output =
      ((pyLines (pyStrip output)).filterMap portRowIdx).foldr Nat.max 0 := by
  have h := foldlMax_eq portRowIdx (pyLines (pyStrip output)) 0
  simpa [_parse_port_count] using h

/-! ## C7 / C10 helper lemmas: dict and record invariants -/

theorem keyedBy_dinsert {α : Type} (f : α → Nat) (d : List (Nat × α))
    (k : Nat) (v : α) (hd : keyedBy f d = true) (hv : f v = k) :
    keyedBy f (dinsert k v d) = true := by
  induction d with
  | nil => simp [keyedBy, dinsert, hv]
  | cons kv rest ih =>
    obtain ⟨k', v'⟩ := kv
    rw [keyedBy, List.all_cons] at hd
    obtain ⟨hhd, htl⟩ := Bool.and_eq_true_iff.mp hd
    by_cases hk : k' = k
    · subst hk
      simp [keyedBy, dinsert, hv, htl]
    · simp only [keyedBy, dinsert, hk, if_false, List.all_cons]
      rw [Bool.and_eq_true_iff]
      exact ⟨hhd, ih htl⟩

theorem keyedBy_dlookup {α : Type} (f : α → Nat) (d : List (Nat × α))
    (k : Nat) (v : α) (hd : keyedBy f d = true) (h : dlookup k d = some v) :
    f v = k := by
  induction d with
  | nil => simp [dlookup] at h
  | cons kv rest ih =>
    obtain ⟨k', v'⟩ := kv
    rw [keyedBy, List.all_cons] at hd
    obtain ⟨hhd, htl⟩ := Bool.and_eq_true_iff.mp hd
    by_cases hk : k' = k
    · subst hk
      rw [dlookup, if_pos rfl] at h
      cases h
      simpa using hhd
    · rw [dlookup, if_neg hk] at h
      exact ih htl h

theorem keyedBy_dsetdefault {α : Type} (f : α → Nat) (d : List (Nat × α))
    (k : Nat) (v : α) (hd : keyedBy f d = true) (hv : f v = k) :
    keyedBy f (dsetdefault k v d) = true := by
  unfold dsetdefault
  cases dlookup k d with
  | some _ => exact hd
  | none => exact keyedBy_dinsert f d k v hd hv

theorem dlookup_dsetdefault_self {α : Type} (k : Nat) (v : α)
    (d : List (Nat × α)) :
    (dlookup k (dsetdefault k v d)).isSome = true := by
  unfold dsetdefault
  cases h : dlookup k d with
  | some w => simp [h]
  | none => simp [dlookup_dinsert_self]

theorem fillSlots_port (l : List (String × Option ℚ)) :
    ∀ r : CableTestResult, (fillSlots r l).port = r.port := by
  induction l with
  | nil => intro r; rfl
  | cons pr rest ih =>
    intro r
    obtain ⟨status, length⟩ := pr
    rw [fillSlots]
    rw [ih]
    split_ifs <;> simp [setPair_port]

theorem applyPairData_port (p : Nat) (pd : List (String × Option ℚ)) :
    (applyPairData p pd).port = p := by
  unfold applyPairData
  rcases pd with _ | ⟨a, _ | ⟨b, _ | ⟨c, _ | ⟨d, tl⟩⟩⟩⟩ <;> rfl

/-! ## C7 / C10: strategy-1 and per-line invariants -/

theorem s1Step_keyed (m : List (Nat × CableTestResult)) (l : String)
    (h : ctKeyed m = true) : ctKeyed (s1Step m l) = true := by
  simp only [s1Step]
  split_ifs <;> try exact h
  cases hm : leadNumRest (pyStrip l) with
  | none => exact h
  | some nr =>
    exact keyedBy_dinsert CableTestResult.port m nr.1 _ h (applyPairData_port nr.1 _)

theorem psStep_keyed (m : List (Nat × PortStatus)) (l : String)
    (h : psKeyed m = true) : psKeyed (psStep m l) = true := by
  simp only [psStep]
  split_ifs <;> try exact h
  cases hm : uNumRest (pyStrip l) with
  | none => exact h
  | some nr =>
    exact keyedBy_dinsert PortStatus.port m nr.1 _ h rfl

theorem diagPairScan_keyed (st : DiagSt) (l : String)
    (h : ctKeyed st.results = true) :
    ctKeyed (diagPairScan st l).results = true := by
  unfold diagPairScan
  cases st.cur with
  | none => exact h
  | some r =>
    cases diagPairSearch l with
    | none => exact h
    | some m =>
      obtain ⟨i, lenG, statG⟩ := m
      exact keyedBy_dinsert CableTestResult.port st.results r.port _ h
        (setPair_port r i _ _)

theorem diagStep_keyed (st : DiagSt) (l : String)
    (h : ctKeyed st.results = true) :
    ctKeyed (diagStep st l).results = true := by
  simp only [diagStep]
  split_ifs with h0 h1 h2
  · exact h
  · exact h
  · cases hg : giHeaderMatch (pyStrip l) with
    | none => exact diagPairScan_keyed st _ h
    | some p =>
      refine keyedBy_dinsert CableTestResult.port st.results p _ h ?_
      rfl
  · cases hg : giHeaderMatch (pyStrip l) with
    | none => exact diagPairScan_keyed st _ h
    | some p =>
      refine diagPairScan_keyed _ _ ?_
      refine keyedBy_dinsert CableTestResult.port st.results p _ h ?_
      rfl

/-! ## C7 / C10: strategy-2 step and fold -/

theorem s2Step_ok (st : S2St) (l : String)
    (h1 : ctKeyed st.byPort = true)
    (h2 : ∀ q, st.cur = some q → (dlookup q st.byPort).isSome = true) :
    ∃ st', s2Step st l = Except.ok st' ∧ ctKeyed st'.byPort = true ∧
      ∀ q, st'.cur = some q → (dlookup q st'.byPort).isSome = true := by
  simp only [s2Step]
  by_cases h0 : pyStrip l = ""
  · rw [if_pos h0]
    exact ⟨st, rfl, h1, h2⟩
  · rw [if_neg h0]
    cases hph : portHeaderSearch (pyLower (pyStrip l)) with
    | some n =>
      refine ⟨_, rfl, ?_, ?_⟩
      · exact keyedBy_dsetdefault CableTestResult.port st.byPort n _ h1 rfl
      · intro q hq
        have hqn : q = n := (Option.some.inj hq).symm
        subst hqn
        exact dlookup_dsetdefault_self q _ _
    | none =>
      cases hbp : barePortMatch (pyLower (pyStrip l)) with
      | some n =>
        refine ⟨_, rfl, ?_, ?_⟩
        · exact keyedBy_dsetdefault CableTestResult.port st.byPort n _ h1 rfl
        · intro q hq
          have hqn : q = n := (Option.some.inj hq).symm
          subst hqn
          exact dlookup_dsetdefault_self q _ _
      | none =>
        cases hcur : st.cur with
        | none =>
          exact ⟨st, rfl, h1, h2⟩
        | some cp =>
          cases hep : _extract_pairs (pyStrip l) with
          | nil =>
            exact ⟨st, rfl, h1, h2⟩
          | cons pr restP =>
            have hlk : (dlookup cp st.byPort).isSome = true := h2 cp hcur
            obtain ⟨r, hr⟩ := Option.isSome_iff_exists.mp hlk
            simp only [hr]
            have hrp : r.port = cp :=
              keyedBy_dlookup CableTestResult.port st.byPort cp r h1 hr
            cases pairLabelSearch (pyLower (pyStrip l)) with
            | some idx =>
              refine ⟨_, rfl, ?_, ?_⟩
              · refine keyedBy_dinsert CableTestResult.port st.byPort cp _ h1 ?_
                rw [setPair_port]
                exact hrp
              · intro q hq
                have hqc : q = cp := (Option.some.inj hq).symm
                subst hqc
                simp [dlookup_dinsert_self]
            | none =>
              refine ⟨_, rfl, ?_, ?_⟩
              · refine keyedBy_dinsert CableTestResult.port st.byPort cp _ h1 ?_
                rw [fillSlots_port]
                exact hrp
              · intro q hq
                have hqc : q = cp := (Option.some.inj hq).symm
                subst hqc
                simp [dlookup_dinsert_self]

theorem s2Fold_ok :
    ∀ (ls : List String) (st : S2St),
      ctKeyed st.byPort = true →
      (∀ q, st.cur = some q → (dlookup q st.byPort).isSome = true) →
      ∃ st', List.foldlM s2Step st ls = Except.ok st' ∧ ctKeyed st'.byPort = true
  | [], st, h1, _ => ⟨st, rfl, h1⟩
  | l :: ls, st, h1, h2 => by
    obtain ⟨st1, hstep, k1, k2⟩ := s2Step_ok st l h1 h2
    obtain ⟨st', hfold, k'⟩ := s2Fold_ok ls st1 k1 k2
    refine ⟨st', ?_, k'⟩
    rw [List.foldlM_cons, hstep]
    show List.foldlM s2Step st1 ls = Except.ok st'
    exact hfold

/-! ## Claim C7 -/

/-- C7: every output parser is total.  The embedded parsers are Lean
functions (so `_parse_port_count`, `_parse_switch_info`,
`_parse_port_statuses` and `_parse_cable_diag_output` return a value on
every input by construction — each fallible sub-operation of the source
is handled where the source handles it), and `_parse_cable_test_output`
— whose strategy-2 dict access `by_port[current_port]` is the one spot
where the source could in principle raise an uncaught `KeyError`, and
is therefore modelled with `Except.error` — never returns an error: the
current-port key is always present when it is read. -/
theorem C7_parsers_total (s : String) :
    ∃ (portCount : Nat) (info : SwitchInfo) (sts : List (Nat × PortStatus))
      (ct : List (Nat × CableTestResult)) (dg : List (Nat × CableTestResult)),
      _parse_port_count s = portCount ∧ _parse_switch_info s = info ∧
      _parse_port_statuses s = sts ∧
      _parse_cable_test_output s = Except.ok ct ∧
      _parse_cable_diag_output s = dg := by
  unfold _parse_cable_test_output
  by_cases hE : ((pyLines (pyStrip s)).foldl s1Step
      ([] : List (Nat × CableTestResult))).isEmpty = true
  · obtain ⟨st', hf, _⟩ := s2Fold_ok (pyLines (pyStrip s)) ⟨none, []⟩ rfl
      (fun q hq => by exact absurd hq (by simp))
    refine ⟨_, _, _, st'.byPort, _, rfl, rfl, rfl, ?_, rfl⟩
    rw [if_pos hE, hf]
    rfl
  · rw [if_neg hE]
    exact ⟨_, _, _, _, _, rfl, rfl, rfl, rfl, rfl⟩

/-! ## Claim C10 -/

/-- C10: key consistency of the per-port parsers — in every mapping they
return, each entry's key equals the `port` field of the record stored
under it (`statuses[p].port == p` for `_parse_port_statuses`,
`results[p].port == p` for `_parse_cable_test_output` — which also
always succeeds — and for `_parse_cable_diag_output`), for every input
string. -/
theorem C10_key_consistency (s : String) :
    psKeyed (_parse_port_statuses s) = true ∧
    (∃ m, _parse_cable_test_output s = Except.ok m ∧ ctKeyed m = true) ∧
    ctKeyed (_parse_cable_diag_output s) = true := by
  refine ⟨?_, ?_, ?_⟩
  · exact foldl_inv psStep (fun m => psKeyed m = true)
      (fun m l h => psStep_keyed m l h) (pyLines (pyStrip s)) [] rfl
  · unfold _parse_cable_test_output
    by_cases hE : ((pyLines (pyStrip s)).foldl s1Step
        ([] : List (Nat × CableTestResult))).isEmpty = true
    · obtain ⟨st', hf, hk⟩ := s2Fold_ok (pyLines (pyStrip s)) ⟨none, []⟩ rfl
        (fun q hq => by exact absurd hq (by simp))
      refine ⟨st'.byPort, ?_, hk⟩
      rw [if_pos hE, hf]
      rfl
    · rw [if_neg hE]
      refine ⟨_, rfl, ?_⟩
      exact foldl_inv s1Step (fun m => ctKeyed m = true)
        (fun m l h => s1Step_keyed m l h) (pyLines (pyStrip s)) [] rfl
  · unfold _parse_cable_diag_output parseCableDiagLines
    exact foldl_inv diagStep (fun st => ctKeyed st.results = true)
      (fun st l h => diagStep_keyed st l h) (pyLines (pyStrip s)) ⟨none, []⟩ rfl

end UniFiCT
